import Mathlib

/-!
# SHIFTR firmware: glue code of `src/main.cpp`

A shallow embedding of the sketch's `setup`, `loop`, `networkEvent` and of the
web handlers `handleWebServerSettings`, `handleWebServerSettingsPost` and
`handleWebServerDebug`, together with the constants of `include/Config.h`.

Conventions of the embedding

* The sketch's global variables and the objects it talks to form a `World`.
  A C++ statement is a `Prog`: it maps a world to a new world and either
  returns a value or ends the run (`ESP.restart()` does not return on the
  ESP32: it reboots the chip).
* Every call that leaves `main.cpp` is recorded, in program order, in
  `World.calls`.  Logging statements (`log_i`, `log_e`, `log_d`) are preprocessor
  statements without effect on the program state and are left out.
* Results of calls into libraries (`BTDeviceManager::start()`, `MDNS.begin`,
  `DirConManager::start()`) are inputs of the embedding.
* An Arduino `String` is the list of its characters.
-/

namespace SHIFTR

/-! ## include/Config.h -/

def WEB_SERVER_PORT : Nat := 80
def DIRCON_TCP_PORT : Nat := 8080
def DIRCON_MAX_CLIENTS : Nat := 3
def DIRCON_NOTIFICATION_INTERVAL : Nat := 1000
def BLE_SCAN_INTERVAL : Nat := 1000
def BLE_CONNECT_INTERVAL : Nat := 1000
def BLE_CONNECT_TIMEOUT : Nat := 10

/-! ## include/SettingsManager.h -/

def WIFI_CONFIG_PIN : Nat := 32
def WIFI_STATUS_PIN : Nat := 2

/-- The values behind the getters of `SettingsManager`.  `uint16_t` values are
natural numbers below `65536`; the shifting mode is the integer the enum value
was cast from. -/
structure Settings where
  trainerDeviceName : String
  virtualShiftingEnabled : Bool
  virtualShiftingMode : Int
  chainringTeeth : Nat
  sprocketTeeth : Nat
  gradeSmoothingEnabled : Bool
  difficulty : Nat
  ftmsEnabled : Bool
  deriving DecidableEq, Repr

/-! ## GATT data model (`Service`, `Characteristic`, `NimBLEUUID`) -/

/-- A UUID, identified by the text `to128().toString()` yields for it. -/
structure NimBLEUUID where
  text : List Char
  deriving DecidableEq, Repr

/-- The UUID constants of `UUIDs.h` that `main.cpp` uses.  The header is not
part of the sources at hand, so the values are parameters. -/
structure UUIDs where
  ZWIFT_CUSTOM_SERVICE_UUID : NimBLEUUID
  ZWIFT_ASYNC_CHARACTERISTIC_UUID : NimBLEUUID
  ZWIFT_SYNCRX_CHARACTERISTIC_UUID : NimBLEUUID
  ZWIFT_SYNCTX_CHARACTERISTIC_UUID : NimBLEUUID
  FITNESS_MACHINE_SERVICE_UUID : NimBLEUUID
  FITNESS_MACHINE_FEATURE_CHARACTERISTIC_UUID : NimBLEUUID
  INDOOR_BIKE_DATA_CHARACTERISTIC_UUID : NimBLEUUID
  TRAINING_STATUS_CHARACTERISTIC_UUID : NimBLEUUID
  FITNESS_MACHINE_CONTROL_POINT_CHARACTERISTIC_UUID : NimBLEUUID
  FITNESS_MACHINE_STATUS_CHARACTERISTIC_UUID : NimBLEUUID

/-- The four characteristic properties. -/
inductive Property where
  | READ | WRITE | NOTIFY | INDICATE
  deriving DecidableEq, Repr

/-- The numeric values of the property constants `READ`, `WRITE`, `NOTIFY` and
`INDICATE`.  Their header is not part of the sources at hand, so the values are
parameters. -/
structure PropertyBits where
  READ : Nat
  WRITE : Nat
  NOTIFY : Nat
  INDICATE : Nat

/-- The constant that stands for a property. -/
def PropertyBits.bit (p : PropertyBits) : Property → Nat
  | .READ => p.READ
  | .WRITE => p.WRITE
  | .NOTIFY => p.NOTIFY
  | .INDICATE => p.INDICATE

/-- The constants are single bits, one per property. -/
def PropertyBits.WellFormed (p : PropertyBits) : Prop :=
  (∀ q : Property, ∃ k : Nat, p.bit q = 2 ^ k) ∧
  (∀ q r : Property, p.bit q = p.bit r → q = r)

/-- Modelled from the spec: class `Characteristic` (its header and body are not
under src/): a uuid, a property bitmask, and the subscriptions, of which
`main.cpp` only reads the number; a characteristic is created without
subscriptions. -/
structure Characteristic where
  UUID : NimBLEUUID
  properties : Nat
  subscriptions : Nat
  deriving DecidableEq, Repr

/-- Modelled from the spec: class `Service` (its header and body are not under
src/): uuid, `isPrimary`, `isAdvertised` and the ordered list of owned
characteristics. -/
structure Service where
  UUID : NimBLEUUID
  isPrimary : Bool
  isAdvertised : Bool
  characteristics : List Characteristic
  deriving DecidableEq, Repr

/-- The constructor `Characteristic(uuid, properties)`. -/
def Characteristic.new (uuid : NimBLEUUID) (properties : Nat) : Characteristic :=
  { UUID := uuid, properties := properties, subscriptions := 0 }

/-- The constructor `Service(uuid, isPrimary, isAdvertised)`. -/
def Service.new (uuid : NimBLEUUID) (isPrimary isAdvertised : Bool) : Service :=
  { UUID := uuid, isPrimary := isPrimary, isAdvertised := isAdvertised, characteristics := [] }

/-- Modelled from the spec: `Service::addCharacteristic` (body not under src/)
appends to the ordered list of owned characteristics. -/
def Service.addCharacteristic (s : Service) (c : Characteristic) : Service :=
  { s with characteristics := s.characteristics ++ [c] }

/-- The properties a bitmask grants, in the order READ, WRITE, NOTIFY,
INDICATE: a property is granted when its bit is set in the mask. -/
def PropertyBits.granted (p : PropertyBits) (mask : Nat) : List Property :=
  [Property.READ, Property.WRITE, Property.NOTIFY, Property.INDICATE].filter
    (fun q => decide (mask &&& p.bit q ≠ 0))

/-! ## The world of the sketch -/

/-- The events `networkEvent` distinguishes; `other` is every event that falls
into the `default` branch. -/
inductive WiFiEvent where
  | ARDUINO_EVENT_WIFI_STA_GOT_IP
  | ARDUINO_EVENT_WIFI_STA_DISCONNECTED
  | ARDUINO_EVENT_WIFI_STA_STOP
  | other (code : Nat)
  deriving DecidableEq, Repr

/-- Calls that leave `main.cpp`, with the arguments and results that matter. -/
inductive Call where
  -- BTDeviceManager
  | BTDeviceManager_setLocalDeviceName
  | BTDeviceManager_setServiceManager
  | BTDeviceManager_start (result : Bool)
  | BTDeviceManager_setRemoteDeviceNameFilter (name : String)
  | BTDeviceManager_update
  -- WiFi / MDNS / DirConManager
  | WiFi_onEvent
  | MDNS_begin (result : Bool)
  | MDNS_setInstanceName
  | DirConManager_setServiceManager
  | DirConManager_start (result : Bool)
  | DirConManager_update
  -- SettingsManager
  | SettingsManager_init
  | setTrainerDeviceName (name : String)
  | setVirtualShiftingEnabled (enabled : Bool)
  | setVirtualShiftingMode (mode : Int)
  | setChainringTeeth (teeth : Nat)
  | setSprocketTeeth (teeth : Nat)
  | setGradeSmoothingEnabled (enabled : Bool)
  | setDifficulty (difficulty : Nat)
  | setFTMSEnabled (enabled : Bool)
  -- iotWebConf / webServer
  | iotWebConf_setStatusPin (pin : Nat)
  | iotWebConf_setConfigPin (pin : Nat)
  | iotWebConf_setWifiConnectionTimeoutMs (ms : Nat)
  | iotWebConf_setApTimeoutMs (ms : Nat)
  | iotWebConf_addParameterGroup
  | iotWebConf_setupUpdateServer
  | iotWebConf_init
  | iotWebConf_setThingName
  | iotWebConf_saveConfig
  | iotWebConf_doLoop
  | webServer_on (uri : String)
  | webServer_onNotFound
  | serviceManager_addService (service : Service)
  -- Arduino core
  | delay (ms : Nat)
  | ESP_restart
  deriving DecidableEq, Repr

/-- The state `main.cpp` reads and writes: its four global flags, the service
manager's list, what the settings getters return, the trainer name filter of
the bluetooth device manager, and the record of calls made so far. -/
structure World where
  isMDNSStarted : Bool
  isBLEConnected : Bool
  isWiFiConnected : Bool
  isDirConStarted : Bool
  settings : Settings
  services : List Service
  remoteDeviceNameFilter : Option String
  calls : List Call
  deriving DecidableEq, Repr

/-- A statement: from a world to a new world, with a result, or with `none`
when the run ended inside the statement. -/
def Prog (α : Type) : Type := World → Option α × World

/-- Sequencing: what follows a statement runs only if the statement returned. -/
def Prog.bind {α β : Type} (m : Prog α) (f : α → Prog β) : Prog β :=
  fun w =>
    match m w with
    | (some a, w1) => f a w1
    | (none, w1) => (none, w1)

instance : Monad Prog where
  pure a := fun w => (some a, w)
  bind := Prog.bind

/-- Record a call. -/
def call (c : Call) : Prog Unit :=
  fun w => (some (), { w with calls := w.calls ++ [c] })

/-- `ESP.restart()`: reboots the chip; control does not come back. -/
def ESP_restart : Prog Unit :=
  fun w => (none, { w with calls := w.calls ++ [Call.ESP_restart] })

/-! ## SettingsManager

`SettingsManager.cpp` is not part of the sources at hand; the header declares a
getter and a setter per value. -/

/-- Modelled from the spec: the bodies of the `SettingsManager` setters and
getters (declared in SettingsManager.h, defined outside src/).  A setter stores
the value it is given, a getter returns the value stored last. -/
def SettingsManager.setTrainerDeviceName (trainerDevice : String) : Prog Unit :=
  fun w => (some (), { w with
    settings := { w.settings with trainerDeviceName := trainerDevice },
    calls := w.calls ++ [Call.setTrainerDeviceName trainerDevice] })

/-- Modelled from the spec: see `SettingsManager.setTrainerDeviceName`. -/
def SettingsManager.setVirtualShiftingEnabled (enabled : Bool) : Prog Unit :=
  fun w => (some (), { w with
    settings := { w.settings with virtualShiftingEnabled := enabled },
    calls := w.calls ++ [Call.setVirtualShiftingEnabled enabled] })

/-- Modelled from the spec: see `SettingsManager.setTrainerDeviceName`. -/
def SettingsManager.setVirtualShiftingMode (virtualShiftingMode : Int) : Prog Unit :=
  fun w => (some (), { w with
    settings := { w.settings with virtualShiftingMode := virtualShiftingMode },
    calls := w.calls ++ [Call.setVirtualShiftingMode virtualShiftingMode] })

/-- Modelled from the spec: see `SettingsManager.setTrainerDeviceName`. -/
def SettingsManager.setChainringTeeth (chainringTeeth : Nat) : Prog Unit :=
  fun w => (some (), { w with
    settings := { w.settings with chainringTeeth := chainringTeeth },
    calls := w.calls ++ [Call.setChainringTeeth chainringTeeth] })

/-- Modelled from the spec: see `SettingsManager.setTrainerDeviceName`. -/
def SettingsManager.setSprocketTeeth (sprocketTeeth : Nat) : Prog Unit :=
  fun w => (some (), { w with
    settings := { w.settings with sprocketTeeth := sprocketTeeth },
    calls := w.calls ++ [Call.setSprocketTeeth sprocketTeeth] })

/-- Modelled from the spec: see `SettingsManager.setTrainerDeviceName`. -/
def SettingsManager.setGradeSmoothingEnabled (enabled : Bool) : Prog Unit :=
  fun w => (some (), { w with
    settings := { w.settings with gradeSmoothingEnabled := enabled },
    calls := w.calls ++ [Call.setGradeSmoothingEnabled enabled] })

/-- Modelled from the spec: see `SettingsManager.setTrainerDeviceName`. -/
def SettingsManager.setDifficulty (difficulty : Nat) : Prog Unit :=
  fun w => (some (), { w with
    settings := { w.settings with difficulty := difficulty },
    calls := w.calls ++ [Call.setDifficulty difficulty] })

/-- Modelled from the spec: see `SettingsManager.setTrainerDeviceName`. -/
def SettingsManager.setFTMSEnabled (enabled : Bool) : Prog Unit :=
  fun w => (some (), { w with
    settings := { w.settings with ftmsEnabled := enabled },
    calls := w.calls ++ [Call.setFTMSEnabled enabled] })

/-- Modelled from the spec: see `SettingsManager.setTrainerDeviceName`. -/
def SettingsManager.isVirtualShiftingEnabled : Prog Bool :=
  fun w => (some w.settings.virtualShiftingEnabled, w)

/-- Modelled from the spec: see `SettingsManager.setTrainerDeviceName`. -/
def SettingsManager.isFTMSEnabled : Prog Bool :=
  fun w => (some w.settings.ftmsEnabled, w)

/-- Modelled from the spec: see `SettingsManager.setTrainerDeviceName`. -/
def SettingsManager.getTrainerDeviceName : Prog String :=
  fun w => (some w.settings.trainerDeviceName, w)

/-! ## The C library and the web server's request -/

/-- `isspace` in the C locale. -/
def isspace (c : Char) : Bool :=
  c == ' ' || c == '\t' || c == '\n' || c == '\x0b' || c == '\x0c' || c == '\r'

/-- `isdigit`. -/
def isdigit (c : Char) : Bool :=
  decide ('0' ≤ c) && decide (c ≤ '9')

/-- The value of the leading run of decimal digits, continuing from `acc`. -/
def atoiDigits : Int → List Char → Int
  | acc, [] => acc
  | acc, c :: cs =>
    if isdigit c then atoiDigits (acc * 10 + ((c.toNat - '0'.toNat : Nat) : Int)) cs else acc

/-- The largest `int` (and `long`) of the ESP32: 32 bits. -/
def INT_MAX : Int := 2147483647

/-- The smallest `int` (and `long`) of the ESP32. -/
def INT_MIN : Int := -2147483648

/-- The number a text denotes for `strtol` in base 10: white space is skipped,
then an optional sign and the decimal digits that follow are read; 0 when there
are no digits. -/
def strtolValue (s : List Char) : Int :=
  match s.dropWhile isspace with
  | '-' :: rest => - atoiDigits 0 rest
  | '+' :: rest => atoiDigits 0 rest
  | rest => atoiDigits 0 rest

/-- `std::atoi` as the ESP32's C library has it: `(int) strtol(s, NULL, 10)`.
The result is an `int`: the number the text denotes when it fits, and
`INT_MAX` or `INT_MIN` when it is too large or too small (`strtol` saturates
at `LONG_MAX` and `LONG_MIN`, and `long` is `int` there). -/
def atoi (s : List Char) : Int :=
  let value := strtolValue s
  if value > INT_MAX then INT_MAX
  else if value < INT_MIN then INT_MIN
  else value

/-- Conversion of an `int` argument to a `uint16_t` parameter. -/
def toUInt16 (x : Int) : Nat := (x % 65536).toNat

/-- The request the web server is handling: its arguments, name and value, in
the order received. -/
structure WebRequest where
  arguments : List (String × String)
  deriving DecidableEq, Repr

/-- `webServer.args()`. -/
def WebRequest.args (r : WebRequest) : Nat := r.arguments.length

/-- `webServer.hasArg(name)`. -/
def WebRequest.hasArg (r : WebRequest) (name : String) : Bool :=
  r.arguments.any (fun a => a.1 == name)

/-- `webServer.arg(name)`: the value of the first argument of that name, the
empty string when there is none. -/
def WebRequest.arg (r : WebRequest) (name : String) : String :=
  match r.arguments.find? (fun a => a.1 == name) with
  | some a => a.2
  | none => ""

/-! ## handleWebServerSettingsPost (main.cpp, lines 298-335) -/

def handleWebServerSettingsPost (webServer : WebRequest) : Prog Unit := do
  if webServer.args > 0 then
    (if webServer.hasArg "trainer_device" then
      SettingsManager.setTrainerDeviceName (webServer.arg "trainer_device")
    else pure ())
    (if webServer.hasArg "virtual_shifting" then
      SettingsManager.setVirtualShiftingEnabled true
    else
      SettingsManager.setVirtualShiftingEnabled false)
    (if webServer.hasArg "virtual_shifting_mode" then
      SettingsManager.setVirtualShiftingMode (atoi (webServer.arg "virtual_shifting_mode").data)
    else pure ())
    (if webServer.hasArg "chainring_teeth" then
      SettingsManager.setChainringTeeth (toUInt16 (atoi (webServer.arg "chainring_teeth").data))
    else pure ())
    (if webServer.hasArg "sprocket_teeth" then
      SettingsManager.setSprocketTeeth (toUInt16 (atoi (webServer.arg "sprocket_teeth").data))
    else pure ())
    (if webServer.hasArg "grade_smoothing" then
      SettingsManager.setGradeSmoothingEnabled true
    else
      SettingsManager.setGradeSmoothingEnabled false)
    (if webServer.hasArg "difficulty" then
      SettingsManager.setDifficulty (toUInt16 (atoi (webServer.arg "difficulty").data))
    else pure ())
    (if webServer.hasArg "ftms_emulation" then do
      SettingsManager.setFTMSEnabled true
      SettingsManager.setVirtualShiftingEnabled false
    else
      SettingsManager.setFTMSEnabled false)
    call Call.iotWebConf_saveConfig
    call (Call.delay 500)
    ESP_restart

/-! ## setup (main.cpp, lines 36-124) -/

/-- `BTDeviceManager::start()`; `result` is what the call returns. -/
def BTDeviceManager.start (result : Bool) : Prog Bool :=
  fun w => (some result, { w with calls := w.calls ++ [Call.BTDeviceManager_start result] })

/-- `BTDeviceManager::setRemoteDeviceNameFilter`. -/
def BTDeviceManager.setRemoteDeviceNameFilter (name : String) : Prog Unit :=
  fun w => (some (), { w with
    remoteDeviceNameFilter := some name,
    calls := w.calls ++ [Call.BTDeviceManager_setRemoteDeviceNameFilter name] })

/-- Modelled from the spec: `ServiceManager::addService` (body not under src/)
registers the service after those registered before. -/
def ServiceManager.addService (service : Service) : Prog Unit :=
  fun w => (some (), { w with
    services := w.services ++ [service],
    calls := w.calls ++ [Call.serviceManager_addService service] })

/-- The sketch's `setup`.  `u` and `p` are the constants of the headers that
are not at hand, `btStart` is the result of `BTDeviceManager::start()`.  The
settings the getters return from line 100 on are the `settings` of the world:
they are what `iotWebConf.init()` loaded. -/
def setup (u : UUIDs) (p : PropertyBits) (btStart : Bool) : Prog Unit := do
  -- initialize bluetooth device manager
  call Call.BTDeviceManager_setLocalDeviceName
  call Call.BTDeviceManager_setServiceManager
  let started ← BTDeviceManager.start btStart
  (if !started then
    ESP_restart
  else pure ())
  -- initialize network events
  call Call.WiFi_onEvent
  -- initialize settings manager
  call Call.SettingsManager_init
  -- initialize wifi manager and web server
  call (Call.iotWebConf_setStatusPin WIFI_STATUS_PIN)
  call (Call.iotWebConf_setConfigPin WIFI_CONFIG_PIN)
  call (Call.iotWebConf_setWifiConnectionTimeoutMs 5000)
  call (Call.iotWebConf_setApTimeoutMs 0)
  call Call.iotWebConf_addParameterGroup
  call Call.iotWebConf_setupUpdateServer
  call Call.iotWebConf_init
  call Call.iotWebConf_setThingName
  call (Call.webServer_on "/debug")
  call (Call.webServer_on "/status")
  call (Call.webServer_on "/favicon.ico")
  call (Call.webServer_on "/style.css")
  call (Call.webServer_on "/")
  call (Call.webServer_on "/settings")
  call (Call.webServer_on "/settings")
  call (Call.webServer_on "/devicesettings")
  call (Call.webServer_on "/config")
  call Call.webServer_onNotFound
  -- initialize service manager internal service if enabled
  let virtualShifting ← SettingsManager.isVirtualShiftingEnabled
  (if virtualShifting then do
    let zwiftCustomService := Service.new u.ZWIFT_CUSTOM_SERVICE_UUID true true
    let zwiftCustomService := zwiftCustomService.addCharacteristic
      (Characteristic.new u.ZWIFT_ASYNC_CHARACTERISTIC_UUID p.NOTIFY)
    let zwiftCustomService := zwiftCustomService.addCharacteristic
      (Characteristic.new u.ZWIFT_SYNCRX_CHARACTERISTIC_UUID p.WRITE)
    let zwiftCustomService := zwiftCustomService.addCharacteristic
      (Characteristic.new u.ZWIFT_SYNCTX_CHARACTERISTIC_UUID p.INDICATE)
    ServiceManager.addService zwiftCustomService
  else pure ())
  -- initialize service manager FTMS service if enabled
  let ftms ← SettingsManager.isFTMSEnabled
  (if ftms then do
    let fitnessMachineService := Service.new u.FITNESS_MACHINE_SERVICE_UUID true true
    let fitnessMachineService := fitnessMachineService.addCharacteristic
      (Characteristic.new u.FITNESS_MACHINE_FEATURE_CHARACTERISTIC_UUID p.READ)
    let fitnessMachineService := fitnessMachineService.addCharacteristic
      (Characteristic.new u.INDOOR_BIKE_DATA_CHARACTERISTIC_UUID p.NOTIFY)
    let fitnessMachineService := fitnessMachineService.addCharacteristic
      (Characteristic.new u.TRAINING_STATUS_CHARACTERISTIC_UUID (p.READ ||| p.NOTIFY))
    let fitnessMachineService := fitnessMachineService.addCharacteristic
      (Characteristic.new u.FITNESS_MACHINE_CONTROL_POINT_CHARACTERISTIC_UUID (p.WRITE ||| p.INDICATE))
    let fitnessMachineService := fitnessMachineService.addCharacteristic
      (Characteristic.new u.FITNESS_MACHINE_STATUS_CHARACTERISTIC_UUID p.NOTIFY)
    ServiceManager.addService fitnessMachineService
  else pure ())
  -- set BTDeviceManager selected trainer device
  let trainerDeviceName ← SettingsManager.getTrainerDeviceName
  BTDeviceManager.setRemoteDeviceNameFilter trainerDeviceName

/-- The world when `setup` starts: the flags as lines 24-27 initialise them, an
empty service manager, no trainer filter, no call made, and the stored
settings. -/
def bootWorld (settings : Settings) : World where
  isMDNSStarted := false
  isBLEConnected := false
  isWiFiConnected := false
  isDirConStarted := false
  settings := settings
  services := []
  remoteDeviceNameFilter := none
  calls := []

/-! ## loop and networkEvent (main.cpp, lines 126-177) -/

/-- What the two library calls of one `loop` iteration return if they are
made. -/
structure LoopInput where
  mdnsBegin : Bool
  dirConStart : Bool
  deriving DecidableEq, Repr

def readIsWiFiConnected : Prog Bool := fun w => (some w.isWiFiConnected, w)
def readIsMDNSStarted : Prog Bool := fun w => (some w.isMDNSStarted, w)
def readIsDirConStarted : Prog Bool := fun w => (some w.isDirConStarted, w)
def writeIsWiFiConnected (b : Bool) : Prog Unit := fun w => (some (), { w with isWiFiConnected := b })
def writeIsMDNSStarted (b : Bool) : Prog Unit := fun w => (some (), { w with isMDNSStarted := b })
def writeIsDirConStarted (b : Bool) : Prog Unit := fun w => (some (), { w with isDirConStarted := b })

/-- `MDNS.begin(...)`; `result` is what the call returns. -/
def MDNS.begin (result : Bool) : Prog Bool :=
  fun w => (some result, { w with calls := w.calls ++ [Call.MDNS_begin result] })

/-- `DirConManager::start()`; `result` is what the call returns. -/
def DirConManager.start (result : Bool) : Prog Bool :=
  fun w => (some result, { w with calls := w.calls ++ [Call.DirConManager_start result] })

/-- The sketch's `loop`.  What `iotWebConf.doLoop()` does inside is not part of
this function. -/
def loop (i : LoopInput) : Prog Unit := do
  call Call.BTDeviceManager_update
  -- Only start WiFi-dependent services after WiFi is connected
  let wifiConnected ← readIsWiFiConnected
  (if wifiConnected then do
    -- Initialize MDNS if not already started
    let mdnsStarted ← readIsMDNSStarted
    (if !mdnsStarted then do
      let ok ← MDNS.begin i.mdnsBegin
      (if ok then do
        call Call.MDNS_setInstanceName
        writeIsMDNSStarted true
      else pure ())
    else pure ())
    -- Initialize DirCon manager if not already started
    let dirConStarted ← readIsDirConStarted
    (if !dirConStarted then do
      call Call.DirConManager_setServiceManager
      let ok ← DirConManager.start i.dirConStart
      (if ok then
        writeIsDirConStarted true
      else pure ())
    else pure ())
    -- Update DirCon manager only if started
    let dirConStarted ← readIsDirConStarted
    (if dirConStarted then
      call Call.DirConManager_update
    else pure ())
  else pure ())
  call Call.iotWebConf_doLoop

/-- The sketch's `networkEvent`. -/
def networkEvent (event : WiFiEvent) : Prog Unit :=
  match event with
  | .ARDUINO_EVENT_WIFI_STA_GOT_IP => writeIsWiFiConnected true
  | .ARDUINO_EVENT_WIFI_STA_DISCONNECTED => writeIsWiFiConnected false
  | .ARDUINO_EVENT_WIFI_STA_STOP => writeIsWiFiConnected false
  | .other _ => pure ()

/-- One thing that happens after `setup`: a `loop` iteration or the delivery
of a network event.  `loop` reads `isWiFiConnected` once, so an event that
arrives while an iteration runs acts as one delivered before the iteration
(when it arrives before the read) or after it. -/
inductive Step where
  | loop (i : LoopInput)
  | networkEvent (event : WiFiEvent)
  deriving DecidableEq, Repr

/-- The statement a step runs. -/
def Step.prog : Step → Prog Unit
  | .loop i => SHIFTR.loop i
  | .networkEvent e => SHIFTR.networkEvent e

/-- The world after a sequence of steps. -/
def runSteps (w : World) (steps : List Step) : World :=
  steps.foldl (fun w s => (s.prog w).2) w

/-- WiFi connectivity as the delivered events tell it: `up` before the steps,
then the state the last GOT_IP / DISCONNECTED / STOP event announced. -/
def wifiAfter (up : Bool) (steps : List Step) : Bool :=
  steps.foldl (fun up s =>
    match s with
    | .networkEvent .ARDUINO_EVENT_WIFI_STA_GOT_IP => true
    | .networkEvent .ARDUINO_EVENT_WIFI_STA_DISCONNECTED => false
    | .networkEvent .ARDUINO_EVENT_WIFI_STA_STOP => false
    | _ => up) up

/-! ## Arduino `String` -/

/-- `String::endsWith`: false when the suffix is longer than the string, else
the comparison of the string's tail with the suffix. -/
def String_endsWith (s suffix : List Char) : Bool :=
  if s.length < suffix.length then false
  else s.drop (s.length - suffix.length) == suffix

/-- `String::remove(index)`: nothing when `index` is not inside the string,
else the string is cut at `index`. -/
def String_remove (s : List Char) (index : Nat) : List Char :=
  if index ≥ s.length then s else s.take index

/-- `String::operator+=` for an unsigned number: its decimal digits. -/
def String_ofNat (n : Nat) : List Char := Nat.toDigits 10 n

/-! ## handleWebServerDebug (main.cpp, lines 414-458) -/

/-- Modelled from the spec: enum `TrainerMode` (declared outside src/). -/
inductive TrainerMode where
  | ERG_MODE | SIM_MODE | SIM_MODE_VIRTUAL_SHIFTING
  deriving DecidableEq, Repr

/-- Lines 431-451: the local `services_json` when it is appended to `json`. -/
def handleWebServerDebug_services_json (services : List Service) : List Char :=
  let services_json := "\"ble_services\": \x7b".data
  let services_json := services.foldl (fun services_json service =>
    let services_json := services_json ++ "\"".data
    let services_json := services_json ++ service.UUID.text
    let services_json := services_json ++ "\": \x7b".data
    let services_json := service.characteristics.foldl (fun services_json characteristic =>
      let services_json := services_json ++ "\"".data
      let services_json := services_json ++ characteristic.UUID.text
      let services_json := services_json ++ "\": ".data
      let services_json := services_json ++ String_ofNat characteristic.subscriptions
      services_json ++ ",".data) services_json
    let services_json :=
      if String_endsWith services_json ",".data then
        String_remove services_json (services_json.length - 1)
      else services_json
    services_json ++ "\x7d,".data) services_json
  let services_json :=
    if String_endsWith services_json ",".data then
      String_remove services_json (services_json.length - 1)
    else services_json
  services_json ++ "\x7d".data

/-- The body `handleWebServerDebug` sends, for the trainer mode
`DirConManager::getZwiftTrainerMode()` returns and the registered services. -/
def handleWebServerDebug (mode : TrainerMode) (services : List Service) : List Char :=
  let json := "\x7b".data
  let json := json ++ "\"zwift_trainer_mode\": \"".data
  let json := json ++
    (match mode with
     | .SIM_MODE => "SIM mode".data
     | .SIM_MODE_VIRTUAL_SHIFTING => "SIM + VS mode".data
     | _ => "ERG mode".data)
  let json := json ++ "\",".data
  let json := json ++ handleWebServerDebug_services_json services
  json ++ "\x7d".data

/-! ## handleWebServerSettings (main.cpp, lines 210-296) -/

/-- A scanned device as `handleWebServerSettings` sees it: `haveName()` and
the text of `getName().c_str()`. -/
structure ScannedDevice where
  name : Option (List Char)
  deriving DecidableEq, Repr

def ScannedDevice.haveName (d : ScannedDevice) : Bool := d.name.isSome

def ScannedDevice.getName (d : ScannedDevice) : List Char := d.name.getD []

/-- Lines 220-233: the local `devices_json` when it is appended to `json`. -/
def handleWebServerSettings_devices_json (scannedDevices : List ScannedDevice) : List Char :=
  let devices_json := "\"trainer_devices\": [".data
  let devices_json := devices_json ++ "\"\",".data
  let devices_json := scannedDevices.foldl (fun devices_json device =>
    if device.haveName then
      let devices_json := devices_json ++ "\"".data
      let devices_json := devices_json ++ device.getName
      devices_json ++ "\",".data
    else devices_json) devices_json
  let devices_json :=
    if String_endsWith devices_json ",".data then
      String_remove devices_json (devices_json.length - 1)
    else devices_json
  devices_json ++ "],".data

/-! ## The texts the specification describes -/

/-- The entry of a characteristic: its uuid in quotes, a colon, and the number
of its subscriptions. -/
def characteristicEntry (c : Characteristic) : List Char :=
  "\"".data ++ c.UUID.text ++ "\": ".data ++ String_ofNat c.subscriptions

/-- The entry of a service: its uuid in quotes, a colon, and in braces the
comma-separated entries of its characteristics. -/
def serviceEntry (s : Service) : List Char :=
  "\"".data ++ s.UUID.text ++ "\": \x7b".data ++
    List.intercalate ",".data (s.characteristics.map characteristicEntry) ++ "\x7d".data

/-- The `ble_services` member: in braces, the comma-separated entries of the
services. -/
def bleServicesText (services : List Service) : List Char :=
  "\"ble_services\": \x7b".data ++ List.intercalate ",".data (services.map serviceEntry) ++ "\x7d".data

/-- A text in double quotes. -/
def quoted (text : List Char) : List Char := "\"".data ++ text ++ "\"".data

/-- The names of the scanned devices that have one, in scan order. -/
def deviceNames (scannedDevices : List ScannedDevice) : List (List Char) :=
  scannedDevices.filterMap ScannedDevice.name

/-- The `trainer_devices` array: in brackets, the comma-separated quoted
entries. -/
def trainerDevicesArray (entries : List (List Char)) : List Char :=
  "[".data ++ List.intercalate ",".data (entries.map quoted) ++ "]".data

/-! ## Auxiliary definitions for the proofs -/

/-- A statement that returns, and whose whole effect is to change the settings
by `f` and to make the calls `l`. -/
def Effect (m : Prog Unit) (f : Settings → Settings) (l : List Call) : Prop :=
  ∀ w : World, m w = (some (), { w with settings := f w.settings, calls := w.calls ++ l })

/-- The calls that are setters of `SettingsManager`. -/
def Call.isSetter : Call → Bool
  | .setTrainerDeviceName _ => true
  | .setVirtualShiftingEnabled _ => true
  | .setVirtualShiftingMode _ => true
  | .setChainringTeeth _ => true
  | .setSprocketTeeth _ => true
  | .setGradeSmoothingEnabled _ => true
  | .setDifficulty _ => true
  | .setFTMSEnabled _ => true
  | _ => false

/-- Summary of `handleWebServerSettingsPost` for a request with arguments: the
settings its setter calls leave behind. -/
def postSettings (req : WebRequest) (s0 : Settings) : Settings :=
  let s1 := if req.hasArg "trainer_device" = true then
    { s0 with trainerDeviceName := req.arg "trainer_device" } else s0
  let s2 := if req.hasArg "virtual_shifting" = true then
    { s1 with virtualShiftingEnabled := true } else { s1 with virtualShiftingEnabled := false }
  let s3 := if req.hasArg "virtual_shifting_mode" = true then
    { s2 with virtualShiftingMode := atoi (req.arg "virtual_shifting_mode").data } else s2
  let s4 := if req.hasArg "chainring_teeth" = true then
    { s3 with chainringTeeth := toUInt16 (atoi (req.arg "chainring_teeth").data) } else s3
  let s5 := if req.hasArg "sprocket_teeth" = true then
    { s4 with sprocketTeeth := toUInt16 (atoi (req.arg "sprocket_teeth").data) } else s4
  let s6 := if req.hasArg "grade_smoothing" = true then
    { s5 with gradeSmoothingEnabled := true } else { s5 with gradeSmoothingEnabled := false }
  let s7 := if req.hasArg "difficulty" = true then
    { s6 with difficulty := toUInt16 (atoi (req.arg "difficulty").data) } else s6
  if req.hasArg "ftms_emulation" = true then
    { s7 with ftmsEnabled := true, virtualShiftingEnabled := false }
  else { s7 with ftmsEnabled := false }

/-- Summary of `handleWebServerSettingsPost` for a request with arguments: the
setter calls it makes before saving, in order, without the last statement's. -/
def postSetterCalls (req : WebRequest) : List Call :=
  (if req.hasArg "trainer_device" = true then
    [Call.setTrainerDeviceName (req.arg "trainer_device")] else []) ++
  (if req.hasArg "virtual_shifting" = true then
    [Call.setVirtualShiftingEnabled true] else [Call.setVirtualShiftingEnabled false]) ++
  (if req.hasArg "virtual_shifting_mode" = true then
    [Call.setVirtualShiftingMode (atoi (req.arg "virtual_shifting_mode").data)] else []) ++
  (if req.hasArg "chainring_teeth" = true then
    [Call.setChainringTeeth (toUInt16 (atoi (req.arg "chainring_teeth").data))] else []) ++
  (if req.hasArg "sprocket_teeth" = true then
    [Call.setSprocketTeeth (toUInt16 (atoi (req.arg "sprocket_teeth").data))] else []) ++
  (if req.hasArg "grade_smoothing" = true then
    [Call.setGradeSmoothingEnabled true] else [Call.setGradeSmoothingEnabled false]) ++
  (if req.hasArg "difficulty" = true then
    [Call.setDifficulty (toUInt16 (atoi (req.arg "difficulty").data))] else [])

/-- Summary of `handleWebServerSettingsPost`: the calls of its last `if`. -/
def postFtmsCalls (req : WebRequest) : List Call :=
  if req.hasArg "ftms_emulation" = true then
    [Call.setFTMSEnabled true, Call.setVirtualShiftingEnabled false]
  else [Call.setFTMSEnabled false]

/-- Every tooth count among the calls is positive. -/
def toothCountsPositive (calls : List Call) : Prop :=
  ∀ n : Nat, Call.setChainringTeeth n ∈ calls ∨ Call.setSprocketTeeth n ∈ calls → 0 < n

/-- The custom simulation service as `setup` builds it (lines 101-104). -/
def zwiftCustomService (u : UUIDs) (p : PropertyBits) : Service where
  UUID := u.ZWIFT_CUSTOM_SERVICE_UUID
  isPrimary := true
  isAdvertised := true
  characteristics :=
    [ { UUID := u.ZWIFT_ASYNC_CHARACTERISTIC_UUID, properties := p.NOTIFY, subscriptions := 0 },
      { UUID := u.ZWIFT_SYNCRX_CHARACTERISTIC_UUID, properties := p.WRITE, subscriptions := 0 },
      { UUID := u.ZWIFT_SYNCTX_CHARACTERISTIC_UUID, properties := p.INDICATE, subscriptions := 0 } ]

/-- The FTMS service as `setup` builds it (lines 110-115). -/
def fitnessMachineService (u : UUIDs) (p : PropertyBits) : Service where
  UUID := u.FITNESS_MACHINE_SERVICE_UUID
  isPrimary := true
  isAdvertised := true
  characteristics :=
    [ { UUID := u.FITNESS_MACHINE_FEATURE_CHARACTERISTIC_UUID, properties := p.READ,
        subscriptions := 0 },
      { UUID := u.INDOOR_BIKE_DATA_CHARACTERISTIC_UUID, properties := p.NOTIFY,
        subscriptions := 0 },
      { UUID := u.TRAINING_STATUS_CHARACTERISTIC_UUID, properties := p.READ ||| p.NOTIFY,
        subscriptions := 0 },
      { UUID := u.FITNESS_MACHINE_CONTROL_POINT_CHARACTERISTIC_UUID,
        properties := p.WRITE ||| p.INDICATE, subscriptions := 0 },
      { UUID := u.FITNESS_MACHINE_STATUS_CHARACTERISTIC_UUID, properties := p.NOTIFY,
        subscriptions := 0 } ]

/-- The calls of `setup` between the bluetooth start and the service
registration (lines 50-96). -/
def setupWebCalls : List Call :=
  [ Call.WiFi_onEvent, Call.SettingsManager_init,
    Call.iotWebConf_setStatusPin WIFI_STATUS_PIN, Call.iotWebConf_setConfigPin WIFI_CONFIG_PIN,
    Call.iotWebConf_setWifiConnectionTimeoutMs 5000, Call.iotWebConf_setApTimeoutMs 0,
    Call.iotWebConf_addParameterGroup, Call.iotWebConf_setupUpdateServer, Call.iotWebConf_init,
    Call.iotWebConf_setThingName,
    Call.webServer_on "/debug", Call.webServer_on "/status", Call.webServer_on "/favicon.ico",
    Call.webServer_on "/style.css", Call.webServer_on "/", Call.webServer_on "/settings",
    Call.webServer_on "/settings", Call.webServer_on "/devicesettings",
    Call.webServer_on "/config", Call.webServer_onNotFound ]

/-- The services `setup` registers for the given settings, in order. -/
def setupServices (u : UUIDs) (p : PropertyBits) (s : Settings) : List Service :=
  (if s.virtualShiftingEnabled = true then [zwiftCustomService u p] else []) ++
  (if s.ftmsEnabled = true then [fitnessMachineService u p] else [])

/-- Summary of one `loop` iteration started in world `w`: the calls it makes,
in order. -/
def loopCalls (i : LoopInput) (w : World) : List Call :=
  [Call.BTDeviceManager_update] ++
  (if w.isWiFiConnected = true then
    (if w.isMDNSStarted = true then []
     else [Call.MDNS_begin i.mdnsBegin] ++
       (if i.mdnsBegin = true then [Call.MDNS_setInstanceName] else [])) ++
    (if w.isDirConStarted = true then []
     else [Call.DirConManager_setServiceManager, Call.DirConManager_start i.dirConStart]) ++
    (if (w.isDirConStarted || i.dirConStart) = true then [Call.DirConManager_update] else [])
   else []) ++
  [Call.iotWebConf_doLoop]

/-- No `DirConManager::update()` among the calls comes before a
`DirConManager::start()` that returned true; `started` tells whether such a
start happened before the calls. -/
def updatesFollowStart (started : Bool) : List Call → Bool
  | [] => true
  | Call.DirConManager_update :: rest => started && updatesFollowStart started rest
  | Call.DirConManager_start true :: rest => updatesFollowStart true rest
  | _ :: rest => updatesFollowStart started rest

/-- The calls that are a `DirConManager::start()`, whatever it returned. -/
def Call.isDirConStart : Call → Bool
  | .DirConManager_start _ => true
  | _ => false

/-- No `loop` iteration among the steps runs while WiFi is connected; `up`
tells whether WiFi is connected before the steps. -/
def noConnectedIteration (up : Bool) : List Step → Bool
  | [] => true
  | Step.loop _ :: rest => !up && noConnectedIteration up rest
  | Step.networkEvent e :: rest =>
    noConnectedIteration (wifiAfter up [Step.networkEvent e]) rest

/-- The `if (s.endsWith(",")) s.remove(s.length() - 1)` of the handlers. -/
def dropTrailingComma (s : List Char) : List Char :=
  if String_endsWith s ",".data then String_remove s (s.length - 1) else s

/-- UUID values used in the worked examples. -/
def exampleUUIDs : UUIDs where
  ZWIFT_CUSTOM_SERVICE_UUID := ⟨"00000001-19ca-4651-86e5-fa29dcdd09d1".data⟩
  ZWIFT_ASYNC_CHARACTERISTIC_UUID := ⟨"00000002-19ca-4651-86e5-fa29dcdd09d1".data⟩
  ZWIFT_SYNCRX_CHARACTERISTIC_UUID := ⟨"00000003-19ca-4651-86e5-fa29dcdd09d1".data⟩
  ZWIFT_SYNCTX_CHARACTERISTIC_UUID := ⟨"00000004-19ca-4651-86e5-fa29dcdd09d1".data⟩
  FITNESS_MACHINE_SERVICE_UUID := ⟨"00001826-0000-1000-8000-00805f9b34fb".data⟩
  FITNESS_MACHINE_FEATURE_CHARACTERISTIC_UUID := ⟨"00002acc-0000-1000-8000-00805f9b34fb".data⟩
  INDOOR_BIKE_DATA_CHARACTERISTIC_UUID := ⟨"00002ad2-0000-1000-8000-00805f9b34fb".data⟩
  TRAINING_STATUS_CHARACTERISTIC_UUID := ⟨"00002ad3-0000-1000-8000-00805f9b34fb".data⟩
  FITNESS_MACHINE_CONTROL_POINT_CHARACTERISTIC_UUID :=
    ⟨"00002ad9-0000-1000-8000-00805f9b34fb".data⟩
  FITNESS_MACHINE_STATUS_CHARACTERISTIC_UUID := ⟨"00002ada-0000-1000-8000-00805f9b34fb".data⟩

/-- Property constants used in the worked examples. -/
def examplePropertyBits : PropertyBits where
  READ := 1
  WRITE := 2
  NOTIFY := 4
  INDICATE := 8

/-- Settings used in the worked examples. -/
def exampleSettings : Settings where
  trainerDeviceName := "KICKR CORE 1234"
  virtualShiftingEnabled := true
  virtualShiftingMode := 0
  chainringTeeth := 34
  sprocketTeeth := 14
  gradeSmoothingEnabled := false
  difficulty := 100
  ftmsEnabled := false

/-! # Theorems -/

/-! ## The `Prog` monad -/

@[simp] theorem Prog.pure_run {α : Type} (a : α) (w : World) :
    (pure a : Prog α) w = (some a, w) := rfl

@[simp] theorem Prog.bind_run {α β : Type} (m : Prog α) (f : α → Prog β) (w : World) :
    (m >>= f) w = match m w with
      | (some a, w1) => f a w1
      | (none, w1) => (none, w1) := rfl

theorem Effect.run_then {β : Type} {m : Prog Unit} {f : Settings → Settings} {l : List Call}
    (h : Effect m f l) (k : Unit → Prog β) (w : World) :
    (m >>= k) w = k () { w with settings := f w.settings, calls := w.calls ++ l } := by
  simp [h w]

theorem Effect.opt {m : Prog Unit} {f : Settings → Settings} {l : List Call}
    (h : Effect m f l) (b : Bool) :
    Effect (if b = true then m else pure ()) (fun s => if b = true then f s else s)
      (if b = true then l else []) := by
  intro w
  cases b
  · simp
  · simpa using h w

theorem Effect.ite {m n : Prog Unit} {f g : Settings → Settings} {l k : List Call}
    (hm : Effect m f l) (hn : Effect n g k) (b : Bool) :
    Effect (if b = true then m else n) (fun s => if b = true then f s else g s)
      (if b = true then l else k) := by
  intro w
  cases b
  · simpa using hn w
  · simpa using hm w

theorem Effect.seq {m n : Prog Unit} {f g : Settings → Settings} {l k : List Call}
    (hm : Effect m f l) (hn : Effect n g k) :
    Effect (m >>= fun _ => n) (fun s => g (f s)) (l ++ k) := by
  intro w
  simp [hm w, hn _]

theorem effect_setTrainerDeviceName (v : String) :
    Effect (SettingsManager.setTrainerDeviceName v) (fun s => { s with trainerDeviceName := v })
      [Call.setTrainerDeviceName v] := fun _ => rfl

theorem effect_setVirtualShiftingEnabled (v : Bool) :
    Effect (SettingsManager.setVirtualShiftingEnabled v)
      (fun s => { s with virtualShiftingEnabled := v }) [Call.setVirtualShiftingEnabled v] :=
  fun _ => rfl

theorem effect_setVirtualShiftingMode (v : Int) :
    Effect (SettingsManager.setVirtualShiftingMode v)
      (fun s => { s with virtualShiftingMode := v }) [Call.setVirtualShiftingMode v] :=
  fun _ => rfl

theorem effect_setChainringTeeth (v : Nat) :
    Effect (SettingsManager.setChainringTeeth v)
      (fun s => { s with chainringTeeth := v }) [Call.setChainringTeeth v] :=
  fun _ => rfl

theorem effect_setSprocketTeeth (v : Nat) :
    Effect (SettingsManager.setSprocketTeeth v)
      (fun s => { s with sprocketTeeth := v }) [Call.setSprocketTeeth v] :=
  fun _ => rfl

theorem effect_setGradeSmoothingEnabled (v : Bool) :
    Effect (SettingsManager.setGradeSmoothingEnabled v)
      (fun s => { s with gradeSmoothingEnabled := v }) [Call.setGradeSmoothingEnabled v] :=
  fun _ => rfl

theorem effect_setDifficulty (v : Nat) :
    Effect (SettingsManager.setDifficulty v)
      (fun s => { s with difficulty := v }) [Call.setDifficulty v] :=
  fun _ => rfl

theorem effect_setFTMSEnabled (v : Bool) :
    Effect (SettingsManager.setFTMSEnabled v)
      (fun s => { s with ftmsEnabled := v }) [Call.setFTMSEnabled v] :=
  fun _ => rfl

/-! ## handleWebServerSettingsPost -/

/-- The handler on a request with at least one argument, in closed form: the
run ends in the restart, the settings are `postSettings`, and the calls made
are the setter calls, then save, delay and restart. -/
theorem handleWebServerSettingsPost_run (req : WebRequest) (w : World) (h : 0 < req.args) :
    handleWebServerSettingsPost req w =
      (none, { w with
        settings := postSettings req w.settings,
        calls := w.calls ++ (postSetterCalls req ++ postFtmsCalls req ++
          [Call.iotWebConf_saveConfig, Call.delay 500, Call.ESP_restart]) }) := by
  unfold handleWebServerSettingsPost
  simp only [gt_iff_lt, h, if_true]
  rw [((effect_setTrainerDeviceName _).opt _).run_then]
  rw [((effect_setVirtualShiftingEnabled _).ite (effect_setVirtualShiftingEnabled _) _).run_then]
  rw [((effect_setVirtualShiftingMode _).opt _).run_then]
  rw [((effect_setChainringTeeth _).opt _).run_then]
  rw [((effect_setSprocketTeeth _).opt _).run_then]
  rw [((effect_setGradeSmoothingEnabled _).ite (effect_setGradeSmoothingEnabled _) _).run_then]
  rw [((effect_setDifficulty _).opt _).run_then]
  rw [(((effect_setFTMSEnabled _).seq (effect_setVirtualShiftingEnabled _)).ite
    (effect_setFTMSEnabled _) _).run_then]
  simp [call, ESP_restart, postSettings, postSetterCalls, postFtmsCalls]

/-- The settings after the handler, field by field. -/
theorem postSettings_eq (req : WebRequest) (s0 : Settings) :
    postSettings req s0 =
      { trainerDeviceName :=
          if req.hasArg "trainer_device" = true then req.arg "trainer_device"
          else s0.trainerDeviceName
        virtualShiftingEnabled := req.hasArg "virtual_shifting" && !req.hasArg "ftms_emulation"
        virtualShiftingMode :=
          if req.hasArg "virtual_shifting_mode" = true then
            atoi (req.arg "virtual_shifting_mode").data
          else s0.virtualShiftingMode
        chainringTeeth :=
          if req.hasArg "chainring_teeth" = true then
            toUInt16 (atoi (req.arg "chainring_teeth").data)
          else s0.chainringTeeth
        sprocketTeeth :=
          if req.hasArg "sprocket_teeth" = true then
            toUInt16 (atoi (req.arg "sprocket_teeth").data)
          else s0.sprocketTeeth
        gradeSmoothingEnabled := req.hasArg "grade_smoothing"
        difficulty :=
          if req.hasArg "difficulty" = true then toUInt16 (atoi (req.arg "difficulty").data)
          else s0.difficulty
        ftmsEnabled := req.hasArg "ftms_emulation" } := by
  unfold postSettings
  generalize req.hasArg "trainer_device" = b1
  generalize req.hasArg "virtual_shifting" = b2
  generalize req.hasArg "virtual_shifting_mode" = b3
  generalize req.hasArg "chainring_teeth" = b4
  generalize req.hasArg "sprocket_teeth" = b5
  generalize req.hasArg "grade_smoothing" = b6
  generalize req.hasArg "difficulty" = b7
  generalize req.hasArg "ftms_emulation" = b8
  cases b1 <;> cases b2 <;> cases b3 <;> cases b4 <;> cases b5 <;> cases b6 <;> cases b7 <;>
    cases b8 <;> rfl

/-- A request without arguments leaves the world as it is and returns. -/
theorem handleWebServerSettingsPost_noargs (req : WebRequest) (w : World) (h : req.args = 0) :
    handleWebServerSettingsPost req w = (some (), w) := by
  unfold handleWebServerSettingsPost
  simp [h]

/-- C1: for every settings POST request with at least one argument that
carries `ftms_emulation`, after `handleWebServerSettingsPost` FTMS emulation is
enabled and virtual shifting is disabled, whatever the settings were before and
whether or not `virtual_shifting` is in the request: the getters return `true`
and `false`, and the last calls made are `setFTMSEnabled(true)`,
`setVirtualShiftingEnabled(false)`, then save, delay and restart. -/
theorem ftms_emulation_forces_virtual_shifting_off (req : WebRequest) (w : World)
    (hargs : 0 < req.args) (hftms : req.hasArg "ftms_emulation" = true) :
    (SettingsManager.isFTMSEnabled (handleWebServerSettingsPost req w).2).1 = some true ∧
    (SettingsManager.isVirtualShiftingEnabled (handleWebServerSettingsPost req w).2).1
      = some false ∧
    ∃ before : List Call, (handleWebServerSettingsPost req w).2.calls =
      w.calls ++ before ++ [Call.setFTMSEnabled true, Call.setVirtualShiftingEnabled false,
        Call.iotWebConf_saveConfig, Call.delay 500, Call.ESP_restart] := by
  rw [handleWebServerSettingsPost_run req w hargs]
  refine ⟨?_, ?_, postSetterCalls req, ?_⟩
  · simp [SettingsManager.isFTMSEnabled, postSettings_eq, hftms]
  · simp [SettingsManager.isVirtualShiftingEnabled, postSettings_eq, hftms]
  · simp [postFtmsCalls, hftms]

/-- Witness of C1: virtual shifting was enabled, and the request asks for both
virtual shifting and FTMS emulation. -/
theorem ftms_emulation_forces_virtual_shifting_off_witness :
    (bootWorld exampleSettings).settings.virtualShiftingEnabled = true ∧
    (SettingsManager.isFTMSEnabled (handleWebServerSettingsPost
      ⟨[("virtual_shifting", "on"), ("ftms_emulation", "on")]⟩
      (bootWorld exampleSettings)).2).1 = some true ∧
    (SettingsManager.isVirtualShiftingEnabled (handleWebServerSettingsPost
      ⟨[("virtual_shifting", "on"), ("ftms_emulation", "on")]⟩
      (bootWorld exampleSettings)).2).1 = some false :=
  ⟨rfl,
   (ftms_emulation_forces_virtual_shifting_off
      ⟨[("virtual_shifting", "on"), ("ftms_emulation", "on")]⟩ (bootWorld exampleSettings)
      (by decide) (by decide)).1,
   (ftms_emulation_forces_virtual_shifting_off
      ⟨[("virtual_shifting", "on"), ("ftms_emulation", "on")]⟩ (bootWorld exampleSettings)
      (by decide) (by decide)).2.1⟩

/-- The result of `atoi` is an `int`. -/
theorem atoi_range (s : List Char) : INT_MIN ≤ atoi s ∧ atoi s ≤ INT_MAX := by
  unfold atoi
  simp only [INT_MIN, INT_MAX]
  split_ifs <;> omega

theorem toUInt16_pos_iff (x : Int) : 0 < toUInt16 x ↔ x % 65536 ≠ 0 := by
  unfold toUInt16
  omega

/-- C2, counterexample: the request `chainring_teeth=0` parses to 0, and the
handler hands the tooth count 0 to `setChainringTeeth`, which stores it. -/
theorem zero_tooth_count_reaches_settings :
    atoi "0".data = 0 ∧
    Call.setChainringTeeth 0 ∈
      (handleWebServerSettingsPost ⟨[("chainring_teeth", "0")]⟩ (bootWorld exampleSettings)).2.calls ∧
    (handleWebServerSettingsPost ⟨[("chainring_teeth", "0")]⟩
      (bootWorld exampleSettings)).2.settings.chainringTeeth = 0 ∧
    ¬ toothCountsPositive
      (handleWebServerSettingsPost ⟨[("chainring_teeth", "0")]⟩ (bootWorld exampleSettings)).2.calls := by
  refine ⟨by decide, by decide, by decide, ?_⟩
  intro h
  exact absurd (h 0 (Or.inl (by decide))) (by decide)

/-- C2, amended: the handler does not validate tooth counts.  For every request
with at least one argument it calls `setChainringTeeth` (`setSprocketTeeth`)
exactly when `chainring_teeth` (`sprocket_teeth`) is in the request, with the
`int` that `atoi` returns for the argument (the number in the text, `INT_MAX`
or `INT_MIN` when the text is out of range) converted to `uint16_t`, and that
value is then the stored one; the count handed over is positive exactly when
that `int` is not a multiple of 65536. -/
theorem tooth_counts_passed_unvalidated (req : WebRequest) (w : World) (hargs : 0 < req.args) :
    ∃ made : List Call, (handleWebServerSettingsPost req w).2.calls = w.calls ++ made ∧
      (∀ n : Nat, Call.setChainringTeeth n ∈ made ↔
        (req.hasArg "chainring_teeth" = true ∧
          n = toUInt16 (atoi (req.arg "chainring_teeth").data))) ∧
      (∀ n : Nat, Call.setSprocketTeeth n ∈ made ↔
        (req.hasArg "sprocket_teeth" = true ∧
          n = toUInt16 (atoi (req.arg "sprocket_teeth").data))) ∧
      (handleWebServerSettingsPost req w).2.settings.chainringTeeth =
        (if req.hasArg "chainring_teeth" = true then
          toUInt16 (atoi (req.arg "chainring_teeth").data) else w.settings.chainringTeeth) ∧
      (handleWebServerSettingsPost req w).2.settings.sprocketTeeth =
        (if req.hasArg "sprocket_teeth" = true then
          toUInt16 (atoi (req.arg "sprocket_teeth").data) else w.settings.sprocketTeeth) ∧
      (0 < toUInt16 (atoi (req.arg "chainring_teeth").data) ↔
        atoi (req.arg "chainring_teeth").data % 65536 ≠ 0) ∧
      (0 < toUInt16 (atoi (req.arg "sprocket_teeth").data) ↔
        atoi (req.arg "sprocket_teeth").data % 65536 ≠ 0) ∧
      (INT_MIN ≤ atoi (req.arg "chainring_teeth").data ∧
        atoi (req.arg "chainring_teeth").data ≤ INT_MAX) ∧
      (INT_MIN ≤ atoi (req.arg "sprocket_teeth").data ∧
        atoi (req.arg "sprocket_teeth").data ≤ INT_MAX) := by
  rw [handleWebServerSettingsPost_run req w hargs]
  refine ⟨_, rfl, ?_, ?_, ?_, ?_, toUInt16_pos_iff _, toUInt16_pos_iff _, atoi_range _,
    atoi_range _⟩
  · intro n
    simp only [postSetterCalls, postFtmsCalls]
    generalize req.hasArg "trainer_device" = b1
    generalize req.hasArg "virtual_shifting" = b2
    generalize req.hasArg "virtual_shifting_mode" = b3
    generalize req.hasArg "chainring_teeth" = b4
    generalize req.hasArg "sprocket_teeth" = b5
    generalize req.hasArg "grade_smoothing" = b6
    generalize req.hasArg "difficulty" = b7
    generalize req.hasArg "ftms_emulation" = b8
    cases b1 <;> cases b2 <;> cases b3 <;> cases b4 <;> cases b5 <;> cases b6 <;> cases b7 <;>
      cases b8 <;> simp
  · intro n
    simp only [postSetterCalls, postFtmsCalls]
    generalize req.hasArg "trainer_device" = b1
    generalize req.hasArg "virtual_shifting" = b2
    generalize req.hasArg "virtual_shifting_mode" = b3
    generalize req.hasArg "chainring_teeth" = b4
    generalize req.hasArg "sprocket_teeth" = b5
    generalize req.hasArg "grade_smoothing" = b6
    generalize req.hasArg "difficulty" = b7
    generalize req.hasArg "ftms_emulation" = b8
    cases b1 <;> cases b2 <;> cases b3 <;> cases b4 <;> cases b5 <;> cases b6 <;> cases b7 <;>
      cases b8 <;> simp
  · rw [postSettings_eq]
  · rw [postSettings_eq]

/-- Witness of the amended C2: a request that sets both tooth counts, and a
request whose chainring text is beyond the range of `int`: `atoi` gives
`INT_MAX`, and the count handed over is 65535. -/
theorem tooth_counts_passed_unvalidated_witness :
    (∃ made : List Call,
      (handleWebServerSettingsPost ⟨[("chainring_teeth", "50"), ("sprocket_teeth", "17")]⟩
        (bootWorld exampleSettings)).2.calls = (bootWorld exampleSettings).calls ++ made ∧
      Call.setChainringTeeth 50 ∈ made ∧ Call.setSprocketTeeth 17 ∈ made) ∧
    (∃ made : List Call,
      (handleWebServerSettingsPost ⟨[("chainring_teeth", "18446744073709551616")]⟩
        (bootWorld exampleSettings)).2.calls = (bootWorld exampleSettings).calls ++ made ∧
      Call.setChainringTeeth 65535 ∈ made ∧ Call.setChainringTeeth 0 ∉ made) := by
  constructor
  · obtain ⟨made, h1, h2, h3, _⟩ := tooth_counts_passed_unvalidated
      ⟨[("chainring_teeth", "50"), ("sprocket_teeth", "17")]⟩ (bootWorld exampleSettings)
      (by decide)
    exact ⟨made, h1, (h2 50).2 (by decide), (h3 17).2 (by decide)⟩
  · obtain ⟨made, h1, h2, _⟩ := tooth_counts_passed_unvalidated
      ⟨[("chainring_teeth", "18446744073709551616")]⟩ (bootWorld exampleSettings) (by decide)
    refine ⟨made, h1, (h2 65535).2 (by decide), fun h => ?_⟩
    exact absurd ((h2 0).1 h).2 (by decide)

theorem postSetterCalls_isSetter (req : WebRequest) :
    ∀ c ∈ postSetterCalls req ++ postFtmsCalls req, c.isSetter = true := by
  intro c hc
  simp only [postSetterCalls, postFtmsCalls, List.mem_append, or_assoc] at hc
  rcases hc with h | h | h | h | h | h | h | h <;>
    (split at h <;> simp at h <;> simp [h, Call.isSetter])
  all_goals (rcases h with rfl | rfl <;> rfl)

/-- C10: checkbox semantics of the settings POST.  For a request with at least
one argument the handler ends in the restart, and afterwards FTMS emulation is
enabled iff `ftms_emulation` is present, grade smoothing iff `grade_smoothing`
is present, virtual shifting iff `virtual_shifting` is present and
`ftms_emulation` is absent, whatever the previous values; the calls it makes
are setter calls followed by `saveConfig`, `delay(500)` and `ESP.restart()`.
For a request without arguments the handler returns and the world, its
settings and its record of calls included, is unchanged. -/
theorem settings_post_checkbox_semantics (req : WebRequest) (w : World) :
    (0 < req.args →
      (handleWebServerSettingsPost req w).1 = none ∧
      (handleWebServerSettingsPost req w).2.settings.ftmsEnabled
        = req.hasArg "ftms_emulation" ∧
      (handleWebServerSettingsPost req w).2.settings.gradeSmoothingEnabled
        = req.hasArg "grade_smoothing" ∧
      (handleWebServerSettingsPost req w).2.settings.virtualShiftingEnabled
        = (req.hasArg "virtual_shifting" && !req.hasArg "ftms_emulation") ∧
      ∃ setters : List Call,
        (handleWebServerSettingsPost req w).2.calls = w.calls ++ setters ++
          [Call.iotWebConf_saveConfig, Call.delay 500, Call.ESP_restart] ∧
        ∀ c ∈ setters, c.isSetter = true) ∧
    (req.args = 0 → handleWebServerSettingsPost req w = (some (), w)) := by
  refine ⟨fun hargs => ?_, handleWebServerSettingsPost_noargs req w⟩
  rw [handleWebServerSettingsPost_run req w hargs, postSettings_eq]
  refine ⟨rfl, rfl, rfl, rfl, postSetterCalls req ++ postFtmsCalls req, ?_,
    postSetterCalls_isSetter req⟩
  simp

/-- Witness of C10: a request that ticks virtual shifting and grade smoothing
but not FTMS emulation, on settings where FTMS emulation is off; and the
request without arguments. -/
theorem settings_post_checkbox_semantics_witness :
    ((handleWebServerSettingsPost ⟨[("virtual_shifting", "on"), ("grade_smoothing", "on")]⟩
        (bootWorld exampleSettings)).2.settings.virtualShiftingEnabled = true ∧
      (handleWebServerSettingsPost ⟨[("virtual_shifting", "on"), ("grade_smoothing", "on")]⟩
        (bootWorld exampleSettings)).2.settings.gradeSmoothingEnabled = true ∧
      (handleWebServerSettingsPost ⟨[("virtual_shifting", "on"), ("grade_smoothing", "on")]⟩
        (bootWorld exampleSettings)).2.settings.ftmsEnabled = false) ∧
    handleWebServerSettingsPost ⟨[]⟩ (bootWorld exampleSettings)
      = (some (), bootWorld exampleSettings) := by
  have h := (settings_post_checkbox_semantics
    ⟨[("virtual_shifting", "on"), ("grade_smoothing", "on")]⟩ (bootWorld exampleSettings)).1
    (by decide)
  refine ⟨⟨?_, ?_, ?_⟩, (settings_post_checkbox_semantics ⟨[]⟩ (bootWorld exampleSettings)).2
    (by decide)⟩
  · rw [h.2.2.2.1]; decide
  · rw [h.2.2.1]; decide
  · rw [h.2.1]; decide

/-! ## setup -/

/-- `setup` on a run in which `BTDeviceManager::start()` succeeds, in closed
form: it returns, registers `setupServices`, and sets the trainer filter. -/
theorem setup_run_started (u : UUIDs) (p : PropertyBits) (w : World) :
    setup u p true w =
      (some (), { w with
        services := w.services ++ setupServices u p w.settings,
        remoteDeviceNameFilter := some w.settings.trainerDeviceName,
        calls := w.calls ++
          ([Call.BTDeviceManager_setLocalDeviceName, Call.BTDeviceManager_setServiceManager,
            Call.BTDeviceManager_start true] ++ setupWebCalls ++
           (setupServices u p w.settings).map Call.serviceManager_addService ++
           [Call.BTDeviceManager_setRemoteDeviceNameFilter w.settings.trainerDeviceName]) }) := by
  cases hv : w.settings.virtualShiftingEnabled <;> cases hf : w.settings.ftmsEnabled <;>
    simp [setup, call, BTDeviceManager.start, SettingsManager.isVirtualShiftingEnabled,
      SettingsManager.isFTMSEnabled, SettingsManager.getTrainerDeviceName,
      BTDeviceManager.setRemoteDeviceNameFilter, ServiceManager.addService, setupServices,
      setupWebCalls, zwiftCustomService, fitnessMachineService, Service.new,
      Service.addCharacteristic, Characteristic.new, hv, hf]

/-- `setup` on a run in which `BTDeviceManager::start()` fails, in closed form:
the run ends in the restart after four calls, and nothing else has changed. -/
theorem setup_run_failed (u : UUIDs) (p : PropertyBits) (w : World) :
    setup u p false w =
      (none, { w with calls := w.calls ++
        [Call.BTDeviceManager_setLocalDeviceName, Call.BTDeviceManager_setServiceManager,
         Call.BTDeviceManager_start false, Call.ESP_restart] }) := by
  simp [setup, call, BTDeviceManager.start, ESP_restart]

/-! ## Property bitmasks -/

theorem and_two_pow_ne_zero (n i : Nat) : n &&& 2 ^ i ≠ 0 ↔ n.testBit i = true := by
  rw [Nat.and_two_pow]
  cases n.testBit i <;> simp

theorem PropertyBits.bit_and_bit {p : PropertyBits} (hp : p.WellFormed) (q r : Property) :
    p.bit q &&& p.bit r ≠ 0 ↔ q = r := by
  obtain ⟨a, ha⟩ := hp.1 q
  obtain ⟨b, hb⟩ := hp.1 r
  constructor
  · intro h
    apply hp.2
    rw [ha, hb] at h ⊢
    rw [and_two_pow_ne_zero, Nat.testBit_two_pow] at h
    rw [of_decide_eq_true h]
  · rintro rfl
    rw [Nat.and_self, ha]
    exact Nat.pos_iff_ne_zero.mp (Nat.two_pow_pos a)

theorem PropertyBits.or_and_bit {p : PropertyBits} (hp : p.WellFormed) (q1 q2 r : Property) :
    (p.bit q1 ||| p.bit q2) &&& p.bit r ≠ 0 ↔ (q1 = r ∨ q2 = r) := by
  rw [← PropertyBits.bit_and_bit hp q1 r, ← PropertyBits.bit_and_bit hp q2 r]
  obtain ⟨b, hb⟩ := hp.1 r
  rw [hb, and_two_pow_ne_zero, and_two_pow_ne_zero, and_two_pow_ne_zero, Nat.testBit_or]
  simp

theorem PropertyBits.granted_bit {p : PropertyBits} (hp : p.WellFormed) (q : Property) :
    p.granted (p.bit q) = [q] := by
  unfold PropertyBits.granted
  simp only [PropertyBits.bit_and_bit hp]
  cases q <;> decide

theorem PropertyBits.granted_or {p : PropertyBits} (hp : p.WellFormed) (q1 q2 : Property) :
    p.granted (p.bit q1 ||| p.bit q2) =
      [Property.READ, Property.WRITE, Property.NOTIFY, Property.INDICATE].filter
        (fun r => decide (q1 = r ∨ q2 = r)) := by
  unfold PropertyBits.granted
  simp only [PropertyBits.or_and_bit hp]

theorem examplePropertyBits_wellFormed : examplePropertyBits.WellFormed := by
  constructor
  · intro q
    cases q
    · exact ⟨0, rfl⟩
    · exact ⟨1, rfl⟩
    · exact ⟨2, rfl⟩
    · exact ⟨3, rfl⟩
  · intro q r h
    cases q <;> cases r <;> first | rfl | exact absurd h (by decide)

/-- C3: on a run of `setup` that gets past the bluetooth start, with FTMS
emulation enabled `setup` registers exactly one service with the FTMS uuid,
primary and advertised, whose characteristics are, in this order, feature with
the properties {READ}, indoor-bike-data with {NOTIFY}, training-status with
{READ, NOTIFY}, control-point with {WRITE, INDICATE} and machine-status with
{NOTIFY}; with FTMS emulation disabled it registers no service with the FTMS
uuid.  The property constants are any four distinct single bits, and the FTMS
service uuid differs from the custom service uuid. -/
theorem setup_registers_ftms_service (u : UUIDs) (p : PropertyBits) (w : World)
    (hp : p.WellFormed)
    (hu : u.ZWIFT_CUSTOM_SERVICE_UUID ≠ u.FITNESS_MACHINE_SERVICE_UUID) :
    (setup u p true w).1 = some () ∧
    ∃ registered : List Service,
      (setup u p true w).2.services = w.services ++ registered ∧
      registered.filter (fun s => decide (s.UUID = u.FITNESS_MACHINE_SERVICE_UUID)) =
        (if w.settings.ftmsEnabled = true then [fitnessMachineService u p] else []) ∧
      (fitnessMachineService u p).UUID = u.FITNESS_MACHINE_SERVICE_UUID ∧
      (fitnessMachineService u p).isPrimary = true ∧
      (fitnessMachineService u p).isAdvertised = true ∧
      (fitnessMachineService u p).characteristics.map
          (fun c => (c.UUID, p.granted c.properties)) =
        [ (u.FITNESS_MACHINE_FEATURE_CHARACTERISTIC_UUID, [Property.READ]),
          (u.INDOOR_BIKE_DATA_CHARACTERISTIC_UUID, [Property.NOTIFY]),
          (u.TRAINING_STATUS_CHARACTERISTIC_UUID, [Property.READ, Property.NOTIFY]),
          (u.FITNESS_MACHINE_CONTROL_POINT_CHARACTERISTIC_UUID,
            [Property.WRITE, Property.INDICATE]),
          (u.FITNESS_MACHINE_STATUS_CHARACTERISTIC_UUID, [Property.NOTIFY]) ] := by
  rw [setup_run_started]
  refine ⟨rfl, setupServices u p w.settings, rfl, ?_, rfl, rfl, rfl, ?_⟩
  · unfold setupServices
    cases w.settings.virtualShiftingEnabled <;> cases w.settings.ftmsEnabled <;>
      simp [zwiftCustomService, fitnessMachineService, hu]
  · have h1 := PropertyBits.granted_bit hp Property.READ
    have h2 := PropertyBits.granted_bit hp Property.NOTIFY
    have h3 := PropertyBits.granted_or hp Property.READ Property.NOTIFY
    have h4 := PropertyBits.granted_or hp Property.WRITE Property.INDICATE
    simp only [PropertyBits.bit] at h1 h2 h3 h4
    simp only [fitnessMachineService, List.map, h1, h2, h3, h4]
    rfl

/-- Witness of C3: FTMS emulation and virtual shifting both enabled. -/
theorem setup_registers_ftms_service_witness :
    ∃ registered : List Service,
      (setup exampleUUIDs examplePropertyBits true
        (bootWorld { exampleSettings with ftmsEnabled := true })).2.services
        = [] ++ registered ∧
      registered.filter
          (fun s => decide (s.UUID = exampleUUIDs.FITNESS_MACHINE_SERVICE_UUID)) =
        [fitnessMachineService exampleUUIDs examplePropertyBits] := by
  obtain ⟨_, registered, h1, h2, _⟩ := setup_registers_ftms_service exampleUUIDs
    examplePropertyBits (bootWorld { exampleSettings with ftmsEnabled := true })
    examplePropertyBits_wellFormed (by decide)
  exact ⟨registered, h1, h2⟩

/-- C4: on a run of `setup` that gets past the bluetooth start, with virtual
shifting enabled `setup` registers exactly one service with the custom
simulation uuid, primary and advertised, whose characteristics are, in this
order, the async characteristic with the properties {NOTIFY}, the write
characteristic with {WRITE} and the indicate characteristic with {INDICATE};
with virtual shifting disabled it registers no service with that uuid.  The
property constants are any four distinct single bits, and the custom service
uuid differs from the FTMS service uuid. -/
theorem setup_registers_custom_service (u : UUIDs) (p : PropertyBits) (w : World)
    (hp : p.WellFormed)
    (hu : u.ZWIFT_CUSTOM_SERVICE_UUID ≠ u.FITNESS_MACHINE_SERVICE_UUID) :
    (setup u p true w).1 = some () ∧
    ∃ registered : List Service,
      (setup u p true w).2.services = w.services ++ registered ∧
      registered.filter (fun s => decide (s.UUID = u.ZWIFT_CUSTOM_SERVICE_UUID)) =
        (if w.settings.virtualShiftingEnabled = true then [zwiftCustomService u p] else []) ∧
      (zwiftCustomService u p).UUID = u.ZWIFT_CUSTOM_SERVICE_UUID ∧
      (zwiftCustomService u p).isPrimary = true ∧
      (zwiftCustomService u p).isAdvertised = true ∧
      (zwiftCustomService u p).characteristics.map
          (fun c => (c.UUID, p.granted c.properties)) =
        [ (u.ZWIFT_ASYNC_CHARACTERISTIC_UUID, [Property.NOTIFY]),
          (u.ZWIFT_SYNCRX_CHARACTERISTIC_UUID, [Property.WRITE]),
          (u.ZWIFT_SYNCTX_CHARACTERISTIC_UUID, [Property.INDICATE]) ] := by
  rw [setup_run_started]
  refine ⟨rfl, setupServices u p w.settings, rfl, ?_, rfl, rfl, rfl, ?_⟩
  · unfold setupServices
    cases w.settings.virtualShiftingEnabled <;> cases w.settings.ftmsEnabled <;>
      simp [zwiftCustomService, fitnessMachineService, Ne.symm hu]
  · have h1 := PropertyBits.granted_bit hp Property.NOTIFY
    have h2 := PropertyBits.granted_bit hp Property.WRITE
    have h3 := PropertyBits.granted_bit hp Property.INDICATE
    simp only [PropertyBits.bit] at h1 h2 h3
    simp only [zwiftCustomService, List.map, h1, h2, h3]

/-- Witness of C4: virtual shifting enabled, FTMS emulation disabled. -/
theorem setup_registers_custom_service_witness :
    ∃ registered : List Service,
      (setup exampleUUIDs examplePropertyBits true (bootWorld exampleSettings)).2.services
        = [] ++ registered ∧
      registered.filter
          (fun s => decide (s.UUID = exampleUUIDs.ZWIFT_CUSTOM_SERVICE_UUID)) =
        [zwiftCustomService exampleUUIDs examplePropertyBits] := by
  obtain ⟨_, registered, h1, h2, _⟩ := setup_registers_custom_service exampleUUIDs
    examplePropertyBits (bootWorld exampleSettings) examplePropertyBits_wellFormed (by decide)
  exact ⟨registered, h1, h2⟩

/-- C5: if `BTDeviceManager::start()` fails, `setup` ends in `ESP.restart()`
right after it: the settings manager is not initialised, no service is
registered and the trainer name filter is not set (the calls made are the
three of the bluetooth device manager and the restart).  For either result of the start, a service is
registered by `setup` only if the start succeeded. -/
theorem setup_aborts_when_bluetooth_start_fails (u : UUIDs) (p : PropertyBits) (w : World)
    (btStart : Bool) :
    (btStart = false →
      (setup u p btStart w).1 = none ∧
      (setup u p btStart w).2.calls = w.calls ++
        [Call.BTDeviceManager_setLocalDeviceName, Call.BTDeviceManager_setServiceManager,
         Call.BTDeviceManager_start false, Call.ESP_restart] ∧
      Call.SettingsManager_init ∉ (setup u p btStart w).2.calls.drop w.calls.length ∧
      (setup u p btStart w).2.services = w.services ∧
      (setup u p btStart w).2.remoteDeviceNameFilter = w.remoteDeviceNameFilter) ∧
    ((setup u p btStart w).2.services ≠ w.services → btStart = true) ∧
    (∀ s : Service,
      Call.serviceManager_addService s ∈ (setup u p btStart w).2.calls.drop w.calls.length →
        btStart = true) := by
  cases btStart
  · rw [setup_run_failed]
    refine ⟨fun _ => ⟨rfl, rfl, ?_, rfl, rfl⟩, fun h => absurd rfl h, fun s hs => ?_⟩
    · simp
    · simp at hs
  · exact ⟨fun h => absurd h (by decide), fun _ => rfl, fun _ _ => rfl⟩

/-- Witness of C5: the start fails although both services are enabled. -/
theorem setup_aborts_when_bluetooth_start_fails_witness :
    (setup exampleUUIDs examplePropertyBits false
      (bootWorld { exampleSettings with ftmsEnabled := true })).1 = none ∧
    (setup exampleUUIDs examplePropertyBits false
      (bootWorld { exampleSettings with ftmsEnabled := true })).2.calls =
      [Call.BTDeviceManager_setLocalDeviceName, Call.BTDeviceManager_setServiceManager,
       Call.BTDeviceManager_start false, Call.ESP_restart] ∧
    (setup exampleUUIDs examplePropertyBits false
      (bootWorld { exampleSettings with ftmsEnabled := true })).2.services = [] := by
  obtain ⟨h1, h2, _, h3, _⟩ := (setup_aborts_when_bluetooth_start_fails exampleUUIDs
    examplePropertyBits (bootWorld { exampleSettings with ftmsEnabled := true }) false).1 rfl
  exact ⟨h1, h2, h3⟩

/-! ## loop and networkEvent -/

/-- One `loop` iteration in closed form: it returns, the flags
`isMDNSStarted` and `isDirConStarted` can only be raised, and the calls made
are `loopCalls`. -/
theorem loop_run (i : LoopInput) (w : World) :
    loop i w = (some (), { w with
      isMDNSStarted := w.isMDNSStarted || (w.isWiFiConnected && i.mdnsBegin),
      isDirConStarted := w.isDirConStarted || (w.isWiFiConnected && i.dirConStart),
      calls := w.calls ++ loopCalls i w }) := by
  obtain ⟨m, d⟩ := i
  cases hw : w.isWiFiConnected <;> cases hm : w.isMDNSStarted <;>
    cases hd : w.isDirConStarted <;> cases m <;> cases d <;>
    simp [loop, call, readIsWiFiConnected, readIsMDNSStarted, readIsDirConStarted,
      writeIsMDNSStarted, writeIsDirConStarted, MDNS.begin, DirConManager.start, loopCalls,
      hw, hm, hd]

theorem networkEvent_run (e : WiFiEvent) (w : World) :
    networkEvent e w = (some (), { w with isWiFiConnected :=
      match e with
      | .ARDUINO_EVENT_WIFI_STA_GOT_IP => true
      | .ARDUINO_EVENT_WIFI_STA_DISCONNECTED => false
      | .ARDUINO_EVENT_WIFI_STA_STOP => false
      | .other _ => w.isWiFiConnected }) := by
  cases e <;> rfl

theorem runSteps_append (w : World) (steps : List Step) (s : Step) :
    runSteps w (steps ++ [s]) = (s.prog (runSteps w steps)).2 := by
  simp [runSteps, List.foldl_append]

theorem wifiAfter_append (up : Bool) (steps : List Step) (s : Step) :
    wifiAfter up (steps ++ [s]) =
      (match s with
       | .networkEvent .ARDUINO_EVENT_WIFI_STA_GOT_IP => true
       | .networkEvent .ARDUINO_EVENT_WIFI_STA_DISCONNECTED => false
       | .networkEvent .ARDUINO_EVENT_WIFI_STA_STOP => false
       | _ => wifiAfter up steps) := by
  simp [wifiAfter, List.foldl_append]

/-- The flag `isWiFiConnected` is what the delivered events say. -/
theorem runSteps_isWiFiConnected (w0 : World) (steps : List Step) :
    (runSteps w0 steps).isWiFiConnected = wifiAfter w0.isWiFiConnected steps := by
  induction steps using List.reverseRecOn with
  | nil => rfl
  | append_singleton steps s ih =>
    rw [runSteps_append, wifiAfter_append]
    cases s with
    | loop i => simp [Step.prog, loop_run, ih]
    | networkEvent e => cases e <;> simp [Step.prog, networkEvent_run, ih]

theorem updatesFollowStart_append (started : Bool) (l m : List Call) :
    updatesFollowStart started (l ++ m) =
      (updatesFollowStart started l &&
        updatesFollowStart (started || decide (Call.DirConManager_start true ∈ l)) m) := by
  induction l generalizing started with
  | nil => simp [updatesFollowStart]
  | cons c l ih =>
    cases c
    case DirConManager_update => cases started <;> simp [updatesFollowStart, ih]
    case DirConManager_start r => cases r <;> simp [updatesFollowStart, ih]
    all_goals simp [updatesFollowStart, ih]

theorem updatesFollowStart_of_no_update (started : Bool) (l : List Call)
    (h : ∀ c ∈ l, c ≠ Call.DirConManager_update) : updatesFollowStart started l = true := by
  induction l generalizing started with
  | nil => rfl
  | cons c l ih =>
    have hc : c ≠ Call.DirConManager_update := h c (List.mem_cons_self _ _)
    have hl : ∀ c ∈ l, c ≠ Call.DirConManager_update :=
      fun c hc => h c (List.mem_cons_of_mem _ hc)
    cases c
    case DirConManager_update => exact absurd rfl hc
    case DirConManager_start r => cases r <;> simp [updatesFollowStart, ih _ hl]
    all_goals simp [updatesFollowStart, ih _ hl]

/-- What `updatesFollowStart` says, in terms of positions in the list. -/
theorem updatesFollowStart_split (started : Bool) (l : List Call)
    (h : updatesFollowStart started l = true) (a b : List Call)
    (hab : l = a ++ Call.DirConManager_update :: b) :
    started = true ∨ Call.DirConManager_start true ∈ a := by
  induction a generalizing started l with
  | nil =>
    subst hab
    simp [updatesFollowStart] at h
    exact Or.inl h.1
  | cons c a ih =>
    subst hab
    cases c
    case DirConManager_update =>
      simp [updatesFollowStart] at h
      exact Or.inl h.1
    case DirConManager_start r =>
      cases r
      · simp only [List.cons_append, updatesFollowStart] at h
        rcases ih started _ h rfl with h1 | h1
        · exact Or.inl h1
        · exact Or.inr (List.mem_cons_of_mem _ h1)
      · exact Or.inr (List.mem_cons_self _ _)
    all_goals
      simp only [List.cons_append, updatesFollowStart] at h
      rcases ih started _ h rfl with h1 | h1
      · exact Or.inl h1
      · exact Or.inr (List.mem_cons_of_mem _ h1)

theorem loopCalls_updatesFollowStart (i : LoopInput) (w : World) :
    updatesFollowStart w.isDirConStarted (loopCalls i w) = true := by
  obtain ⟨m, d⟩ := i
  cases hw : w.isWiFiConnected <;> cases hm : w.isMDNSStarted <;>
    cases hd : w.isDirConStarted <;> cases m <;> cases d <;>
    simp [loopCalls, updatesFollowStart, hw, hm, hd]

theorem loopCalls_start_mem (i : LoopInput) (w : World) :
    decide (Call.DirConManager_start true ∈ loopCalls i w) =
      (w.isWiFiConnected && !w.isDirConStarted && i.dirConStart) := by
  obtain ⟨m, d⟩ := i
  cases hw : w.isWiFiConnected <;> cases hm : w.isMDNSStarted <;>
    cases hd : w.isDirConStarted <;> cases m <;> cases d <;>
    simp [loopCalls, hw, hm, hd]

/-- The invariant of the sketch after `setup`: `isDirConStarted` is set exactly
when a `DirConManager::start()` has returned true, and no
`DirConManager::update()` was called before that. -/
theorem runSteps_invariant (w0 : World) (steps : List Step)
    (h0 : w0.isDirConStarted = false)
    (hc : ∀ c ∈ w0.calls, c ≠ Call.DirConManager_update ∧ c ≠ Call.DirConManager_start true) :
    (runSteps w0 steps).isDirConStarted =
        decide (Call.DirConManager_start true ∈ (runSteps w0 steps).calls) ∧
      updatesFollowStart false (runSteps w0 steps).calls = true := by
  induction steps using List.reverseRecOn with
  | nil =>
    refine ⟨?_, updatesFollowStart_of_no_update _ _ (fun c h => (hc c h).1)⟩
    have : Call.DirConManager_start true ∉ w0.calls := fun h => (hc _ h).2 rfl
    simp [runSteps, h0, this]
  | append_singleton steps s ih =>
    rw [runSteps_append]
    cases s with
    | loop i =>
      obtain ⟨ih1, ih2⟩ := ih
      have hs := loopCalls_start_mem i (runSteps w0 steps)
      have hu := loopCalls_updatesFollowStart i (runSteps w0 steps)
      simp only [Step.prog, loop_run]
      constructor
      · have hmem : decide (Call.DirConManager_start true ∈
            (runSteps w0 steps).calls ++ loopCalls i (runSteps w0 steps)) =
            (decide (Call.DirConManager_start true ∈ (runSteps w0 steps).calls) ||
              decide (Call.DirConManager_start true ∈ loopCalls i (runSteps w0 steps))) := by
          simp
        rw [hmem, ← ih1, hs]
        cases (runSteps w0 steps).isDirConStarted <;>
          cases (runSteps w0 steps).isWiFiConnected <;> cases i.dirConStart <;> rfl
      · rw [updatesFollowStart_append, ih2, Bool.false_or, ← ih1, hu]
        rfl
    | networkEvent e =>
      simpa [Step.prog, networkEvent_run] using ih

theorem loopCalls_counts (i : LoopInput) (w : World) :
    (loopCalls i w).head? = some Call.BTDeviceManager_update ∧
    (loopCalls i w).count Call.BTDeviceManager_update = 1 ∧
    (loopCalls i w).count Call.DirConManager_update =
      (if (w.isWiFiConnected && (w.isDirConStarted || i.dirConStart)) = true then 1 else 0) := by
  obtain ⟨m, d⟩ := i
  cases hw : w.isWiFiConnected <;> cases hm : w.isMDNSStarted <;>
    cases hd : w.isDirConStarted <;> cases m <;> cases d <;>
    simp [loopCalls, hw, hm, hd]

/-- C6: one polling cycle drives both bridges.  Start from any world in which
DirCon is not started and has not been called, run any sequence of `loop`
iterations and network events, and then one more iteration: the iteration
returns; its first call is `BTDeviceManager::update()`, made exactly once; it
calls `DirConManager::update()` once if WiFi is connected according to the
events delivered so far and a `DirConManager::start()` has returned true in
this or an earlier iteration, and not at all otherwise; that call comes after
the BLE update; and in the whole record no `DirConManager::update()` comes
before a `DirConManager::start()` that returned true. -/
theorem loop_drives_both_bridges (w0 : World) (pre : List Step) (i : LoopInput)
    (h0 : w0.isDirConStarted = false)
    (hc : ∀ c ∈ w0.calls, c ≠ Call.DirConManager_update ∧ c ≠ Call.DirConManager_start true) :
    (loop i (runSteps w0 pre)).1 = some () ∧
    (∃ made : List Call,
      (loop i (runSteps w0 pre)).2.calls = (runSteps w0 pre).calls ++ made ∧
      made.head? = some Call.BTDeviceManager_update ∧
      made.count Call.BTDeviceManager_update = 1 ∧
      made.count Call.DirConManager_update =
        (if wifiAfter w0.isWiFiConnected pre = true ∧
            Call.DirConManager_start true ∈ (loop i (runSteps w0 pre)).2.calls
          then 1 else 0) ∧
      (∀ a b : List Call, made = a ++ Call.DirConManager_update :: b →
        Call.BTDeviceManager_update ∈ a)) ∧
    (∀ a b : List Call, (loop i (runSteps w0 pre)).2.calls = a ++ Call.DirConManager_update :: b →
      Call.DirConManager_start true ∈ a) := by
  obtain ⟨inv1, inv2⟩ := runSteps_invariant w0 pre h0 hc
  have hwifi := runSteps_isWiFiConnected w0 pre
  obtain ⟨hhead, hbt, hupd⟩ := loopCalls_counts i (runSteps w0 pre)
  have hs := loopCalls_start_mem i (runSteps w0 pre)
  have hu := loopCalls_updatesFollowStart i (runSteps w0 pre)
  rw [loop_run]
  refine ⟨rfl, ⟨loopCalls i (runSteps w0 pre), rfl, hhead, hbt, ?_, ?_⟩, ?_⟩
  · rw [hupd, ← hwifi]
    have hmem : decide (Call.DirConManager_start true ∈
        (runSteps w0 pre).calls ++ loopCalls i (runSteps w0 pre)) =
        ((runSteps w0 pre).isDirConStarted ||
          ((runSteps w0 pre).isWiFiConnected && !(runSteps w0 pre).isDirConStarted &&
            i.dirConStart)) := by
      rw [← hs, inv1]
      simp
    have hiff : ((runSteps w0 pre).isWiFiConnected = true ∧
        Call.DirConManager_start true ∈
          (runSteps w0 pre).calls ++ loopCalls i (runSteps w0 pre)) ↔
        ((runSteps w0 pre).isWiFiConnected &&
          ((runSteps w0 pre).isDirConStarted || i.dirConStart)) = true := by
      rw [← decide_eq_true_iff (p := Call.DirConManager_start true ∈ _), hmem]
      cases (runSteps w0 pre).isWiFiConnected <;> cases (runSteps w0 pre).isDirConStarted <;>
        cases i.dirConStart <;> simp
    simp only [hiff]
  · intro a b hab
    cases a with
    | nil =>
      rw [hab] at hhead
      simp at hhead
    | cons c a =>
      rw [hab] at hhead
      simp only [List.cons_append, List.head?_cons, Option.some.injEq] at hhead
      rw [hhead]
      exact List.mem_cons_self _ _
  · intro a b hab
    have hall : updatesFollowStart false
        ((runSteps w0 pre).calls ++ loopCalls i (runSteps w0 pre)) = true := by
      rw [updatesFollowStart_append, inv2, Bool.false_or, ← inv1, hu]
      rfl
    rcases updatesFollowStart_split false _ hall a b hab with h | h
    · exact absurd h (by decide)
    · exact h

/-- Witness of C6: WiFi comes up, a first iteration fails to start DirCon, and
a second one starts it. -/
theorem loop_drives_both_bridges_witness :
    ∃ made : List Call,
      (loop ⟨true, true⟩ (runSteps (bootWorld exampleSettings)
        [Step.networkEvent WiFiEvent.ARDUINO_EVENT_WIFI_STA_GOT_IP,
         Step.loop ⟨true, false⟩])).2.calls =
        (runSteps (bootWorld exampleSettings)
          [Step.networkEvent WiFiEvent.ARDUINO_EVENT_WIFI_STA_GOT_IP,
           Step.loop ⟨true, false⟩]).calls ++ made ∧
      made.head? = some Call.BTDeviceManager_update ∧
      made.count Call.BTDeviceManager_update = 1 ∧
      made.count Call.DirConManager_update = 1 := by
  obtain ⟨_, ⟨made, h1, h2, h3, h4, _⟩, _⟩ := loop_drives_both_bridges
    (bootWorld exampleSettings)
    [Step.networkEvent WiFiEvent.ARDUINO_EVENT_WIFI_STA_GOT_IP, Step.loop ⟨true, false⟩]
    ⟨true, true⟩ rfl (by intro c hc; cases hc)
  refine ⟨made, h1, h2, h3, ?_⟩
  rw [h4]
  decide

/-! ## Arduino `String` -/

theorem String_endsWith_snoc (x : List Char) (c : Char) :
    String_endsWith (x ++ [c]) ",".data = (c == ',') := by
  have h : ",".data = [','] := rfl
  simp [String_endsWith, h]

theorem dropTrailingComma_snoc_comma (x : List Char) :
    dropTrailingComma (x ++ ",".data) = x := by
  have h : ",".data = [','] := rfl
  rw [dropTrailingComma, h, String_endsWith_snoc]
  simp [String_remove]

theorem dropTrailingComma_snoc_other (x : List Char) (c : Char) (hc : c ≠ ',') :
    dropTrailingComma (x ++ [c]) = x ++ [c] := by
  rw [dropTrailingComma, String_endsWith_snoc]
  simp [hc]

/-- Entries that each end in a comma, with the last comma removed, are the
entries separated by commas. -/
theorem flatten_comma_eq (entries : List (List Char)) (h : entries ≠ []) :
    (entries.map (fun e => e ++ ",".data)).flatten =
      List.intercalate ",".data entries ++ ",".data := by
  induction entries with
  | nil => exact absurd rfl h
  | cons e rest ih =>
    cases rest with
    | nil => simp [List.intercalate]
    | cons e2 rest =>
      have ih2 := ih (by simp)
      simp only [List.map_cons, List.flatten_cons] at ih2 ⊢
      rw [ih2]
      simp [List.intercalate, List.intersperse]

/-! ## handleWebServerDebug and handleWebServerSettings -/

/-- Entries appended each with a comma to a text that does not end in a comma,
then `dropTrailingComma`: the text followed by the comma-separated entries. -/
theorem dropTrailingComma_entries (acc : List Char) (c : Char) (hc : c ≠ ',')
    (entries : List (List Char)) :
    dropTrailingComma (acc ++ [c] ++ (entries.map (fun e => e ++ ",".data)).flatten) =
      acc ++ [c] ++ List.intercalate ",".data entries := by
  cases entries with
  | nil => simpa [List.intercalate] using dropTrailingComma_snoc_other acc c hc
  | cons e rest =>
    rw [flatten_comma_eq (e :: rest) (by simp), ← List.append_assoc,
      dropTrailingComma_snoc_comma]

theorem foldl_characteristics (chars : List Characteristic) (acc : List Char) :
    chars.foldl (fun services_json characteristic =>
        services_json ++ "\"".data ++ characteristic.UUID.text ++ "\": ".data ++
          String_ofNat characteristic.subscriptions ++ ",".data) acc =
      acc ++ ((chars.map characteristicEntry).map (fun e => e ++ ",".data)).flatten := by
  induction chars generalizing acc with
  | nil => simp
  | cons c cs ih =>
    rw [List.foldl_cons, ih]
    simp [characteristicEntry]

theorem services_json_service_step (acc : List Char) (service : Service) :
    dropTrailingComma (service.characteristics.foldl (fun services_json characteristic =>
        services_json ++ "\"".data ++ characteristic.UUID.text ++ "\": ".data ++
          String_ofNat characteristic.subscriptions ++ ",".data)
        (acc ++ "\"".data ++ service.UUID.text ++ "\": \x7b".data)) ++ "\x7d,".data =
      acc ++ (serviceEntry service ++ ",".data) := by
  have e : acc ++ "\"".data ++ service.UUID.text ++ "\": \x7b".data =
      (acc ++ "\"".data ++ service.UUID.text ++ "\": ".data) ++ ['{'] := by simp
  rw [foldl_characteristics, e, dropTrailingComma_entries _ '{' (by decide)]
  simp [serviceEntry]

theorem foldl_services (services : List Service) (acc : List Char) :
    services.foldl (fun services_json service =>
        dropTrailingComma (service.characteristics.foldl (fun services_json characteristic =>
          services_json ++ "\"".data ++ characteristic.UUID.text ++ "\": ".data ++
            String_ofNat characteristic.subscriptions ++ ",".data)
          (services_json ++ "\"".data ++ service.UUID.text ++ "\": \x7b".data)) ++ "\x7d,".data) acc =
      acc ++ ((services.map serviceEntry).map (fun e => e ++ ",".data)).flatten := by
  induction services generalizing acc with
  | nil => simp
  | cons s ss ih =>
    rw [List.foldl_cons, services_json_service_step, ih]
    simp

/-- C8: for every list of registered services, the empty list and services
without characteristics included, the `ble_services` fragment
`handleWebServerDebug` builds is `"ble_services": {`, the comma-separated
entries `"<service uuid>": {<chars>}` of the services in registration order, and
`}`, where `<chars>` is the comma-separated list of the entries
`"<characteristic uuid>": <number of subscriptions>` of the service's
characteristics in order; separated means a comma between two entries and none
before the first or after the last. -/
theorem debug_ble_services_text (services : List Service) :
    handleWebServerDebug_services_json services = bleServicesText services ∧
    handleWebServerDebug_services_json [] = "\"ble_services\": \x7b\x7d".data ∧
    ∀ (uuid : NimBLEUUID) (isPrimary isAdvertised : Bool),
      handleWebServerDebug_services_json [⟨uuid, isPrimary, isAdvertised, []⟩] =
        "\"ble_services\": \x7b\"".data ++ uuid.text ++ "\": \x7b\x7d\x7d".data := by
  have key : ∀ l : List Service, handleWebServerDebug_services_json l = bleServicesText l := by
    intro l
    have h : handleWebServerDebug_services_json l =
        dropTrailingComma (l.foldl (fun services_json service =>
          dropTrailingComma (service.characteristics.foldl (fun services_json characteristic =>
            services_json ++ "\"".data ++ characteristic.UUID.text ++ "\": ".data ++
              String_ofNat characteristic.subscriptions ++ ",".data)
            (services_json ++ "\"".data ++ service.UUID.text ++ "\": \x7b".data)) ++ "\x7d,".data)
          "\"ble_services\": \x7b".data) ++ "\x7d".data := rfl
    have e : "\"ble_services\": \x7b".data = "\"ble_services\": ".data ++ ['{'] := rfl
    rw [h, foldl_services, e, dropTrailingComma_entries _ '{' (by decide)]
    simp [bleServicesText]
  refine ⟨key services, by rw [key]; rfl, fun uuid isPrimary isAdvertised => ?_⟩
  rw [key]
  simp [bleServicesText, serviceEntry, List.intercalate]

theorem foldl_devices (devices : List ScannedDevice) (acc : List Char) :
    devices.foldl (fun devices_json device =>
        if device.haveName = true then devices_json ++ "\"".data ++ device.getName ++ "\",".data
        else devices_json) acc =
      acc ++ (((deviceNames devices).map quoted).map (fun e => e ++ ",".data)).flatten := by
  induction devices generalizing acc with
  | nil => simp [deviceNames]
  | cons d ds ih =>
    rw [List.foldl_cons, ih]
    obtain ⟨name⟩ := d
    cases name with
    | none => simp [ScannedDevice.haveName, deviceNames]
    | some n => simp [ScannedDevice.haveName, ScannedDevice.getName, deviceNames, quoted]

/-- C9: for every list of scanned devices, the `trainer_devices` member
`handleWebServerSettings` builds is the key, the array and the comma that
separates it from the next member, where the array holds the empty string
first and then the names of the scanned devices that have one, in scan order
and with repetitions, each in quotes and separated by commas; a device without
a name adds nothing, and with no named device the array is `[""]`. -/
theorem settings_trainer_devices_text (scannedDevices : List ScannedDevice) :
    handleWebServerSettings_devices_json scannedDevices =
      "\"trainer_devices\": ".data ++ trainerDevicesArray ([] :: deviceNames scannedDevices) ++
        ",".data ∧
    (deviceNames scannedDevices = [] →
      trainerDevicesArray ([] :: deviceNames scannedDevices) = "[\"\"]".data) := by
  constructor
  · have h : handleWebServerSettings_devices_json scannedDevices =
        dropTrailingComma (scannedDevices.foldl (fun devices_json device =>
          if device.haveName = true then
            devices_json ++ "\"".data ++ device.getName ++ "\",".data
          else devices_json) ("\"trainer_devices\": [".data ++ "\"\",".data)) ++ "],".data := rfl
    have e : "\"trainer_devices\": [".data ++ "\"\",".data ++
        (((deviceNames scannedDevices).map quoted).map (fun e => e ++ ",".data)).flatten =
        "\"trainer_devices\": ".data ++ ['['] ++
          ((([] :: deviceNames scannedDevices).map quoted).map
            (fun e => e ++ ",".data)).flatten := by
      simp [quoted]
    rw [h, foldl_devices, e, dropTrailingComma_entries _ '[' (by decide)]
    simp [trainerDevicesArray]
  · intro h
    rw [h]
    rfl

/-- Witness of C9: a scan without any named device. -/
theorem settings_trainer_devices_text_witness :
    handleWebServerSettings_devices_json [⟨none⟩, ⟨none⟩] =
      "\"trainer_devices\": ".data ++ "[\"\"]".data ++ ",".data := by
  have h := settings_trainer_devices_text [⟨none⟩, ⟨none⟩]
  rw [h.1, h.2 rfl]

/-! ## The DirCon start-once invariant -/

theorem runSteps_cons (w : World) (s : Step) (steps : List Step) :
    runSteps w (s :: steps) = runSteps (s.prog w).2 steps := rfl

theorem runSteps_concat (w : World) (a b : List Step) :
    runSteps w (a ++ b) = runSteps (runSteps w a) b := by
  simp [runSteps, List.foldl_append]

theorem wifiAfter_concat (up : Bool) (a b : List Step) :
    wifiAfter up (a ++ b) = wifiAfter (wifiAfter up a) b := by
  simp [wifiAfter, List.foldl_append]

/-- The `DirConManager::start()` calls of one iteration: one, with the result
the library gives, when WiFi is connected and DirCon is not started; none
otherwise. -/
theorem loopCalls_filter_start (i : LoopInput) (w : World) :
    (loopCalls i w).filter Call.isDirConStart =
      (if (w.isWiFiConnected && !w.isDirConStarted) = true then
        [Call.DirConManager_start i.dirConStart] else []) := by
  obtain ⟨m, d⟩ := i
  cases hw : w.isWiFiConnected <;> cases hm : w.isMDNSStarted <;>
    cases hd : w.isDirConStarted <;> cases m <;> cases d <;>
    simp [loopCalls, Call.isDirConStart, hw, hm, hd]

/-- Once `isDirConStarted` is set, no sequence of steps clears it or calls
`DirConManager::start()`. -/
theorem runSteps_started (post : List Step) (w : World) (h : w.isDirConStarted = true) :
    (runSteps w post).isDirConStarted = true ∧
    ∃ later : List Call, (runSteps w post).calls = w.calls ++ later ∧
      later.filter Call.isDirConStart = [] := by
  induction post generalizing w with
  | nil => exact ⟨h, [], by simp [runSteps], rfl⟩
  | cons s post ih =>
    rw [runSteps_cons]
    cases s with
    | loop i =>
      have hflag : ((Step.loop i).prog w).2.isDirConStarted = true := by
        simp [Step.prog, loop_run, h]
      obtain ⟨h1, later, h2, h3⟩ := ih _ hflag
      refine ⟨h1, loopCalls i w ++ later, ?_, ?_⟩
      · rw [h2]
        simp [Step.prog, loop_run]
      · rw [List.filter_append, h3, loopCalls_filter_start]
        simp [h]
    | networkEvent e =>
      have hflag : ((Step.networkEvent e).prog w).2.isDirConStarted = true := by
        simp [Step.prog, networkEvent_run, h]
      obtain ⟨h1, later, h2, h3⟩ := ih _ hflag
      refine ⟨h1, later, ?_, h3⟩
      rw [h2]
      simp [Step.prog, networkEvent_run]

/-- Steps without a WiFi-connected iteration call no `DirConManager::start()`. -/
theorem runSteps_noConnectedIteration (mid : List Step) (w : World)
    (h : noConnectedIteration w.isWiFiConnected mid = true) :
    ∃ later : List Call, (runSteps w mid).calls = w.calls ++ later ∧
      later.filter Call.isDirConStart = [] := by
  induction mid generalizing w with
  | nil => exact ⟨[], by simp [runSteps], rfl⟩
  | cons s mid ih =>
    rw [runSteps_cons]
    cases s with
    | loop i =>
      simp only [noConnectedIteration, Bool.and_eq_true, Bool.not_eq_true'] at h
      have hwifi : ((Step.loop i).prog w).2.isWiFiConnected = w.isWiFiConnected := by
        simp [Step.prog, loop_run]
      obtain ⟨later, h2, h3⟩ := ih ((Step.loop i).prog w).2 (by rw [hwifi]; exact h.2)
      refine ⟨loopCalls i w ++ later, ?_, ?_⟩
      · rw [h2]
        simp [Step.prog, loop_run]
      · rw [List.filter_append, h3, loopCalls_filter_start]
        simp [h.1]
    | networkEvent e =>
      simp only [noConnectedIteration] at h
      have hwifi : ((Step.networkEvent e).prog w).2.isWiFiConnected =
          wifiAfter w.isWiFiConnected [Step.networkEvent e] := by
        cases e <;> rfl
      obtain ⟨later, h2, h3⟩ := ih ((Step.networkEvent e).prog w).2 (by rw [hwifi]; exact h)
      refine ⟨later, ?_, h3⟩
      rw [h2]
      simp [Step.prog, networkEvent_run]

theorem start_true_isDirConStart_mem {l : List Call} (h : l.filter Call.isDirConStart = [])
    (r : Bool) : Call.DirConManager_start r ∉ l := by
  intro hm
  have : Call.DirConManager_start r ∈ l.filter Call.isDirConStart :=
    List.mem_filter.mpr ⟨hm, rfl⟩
  rw [h] at this
  cases this


/-- C11: the DirCon start-once invariant.  Start from any world in which DirCon
is not started and has not been called, and run any sequence of `loop`
iterations and network events.  A network event makes no call.  An iteration
calls `DirConManager::start()` exactly when WiFi is connected (according to the
events delivered so far) and no earlier call of it has returned true, and then
once.  `isDirConStarted` is set exactly when a call has returned true.  After a
call that returned false, the next iteration that runs with WiFi connected
calls it again.  Once a call has returned true, whatever steps follow (WiFi
disconnect and stop events included) leave `isDirConStarted` set and never call
`DirConManager::start()` again. -/
theorem dircon_start_once (w0 : World) (pre : List Step) (i : LoopInput) (mid : List Step)
    (j : LoopInput) (post : List Step)
    (h0 : w0.isDirConStarted = false)
    (hc : ∀ c ∈ w0.calls, c ≠ Call.DirConManager_update ∧ c ≠ Call.DirConManager_start true) :
    (∀ e : WiFiEvent,
      (networkEvent e (runSteps w0 pre)).2.calls = (runSteps w0 pre).calls ∧
      (networkEvent e (runSteps w0 pre)).2.isDirConStarted
        = (runSteps w0 pre).isDirConStarted) ∧
    (∃ made : List Call,
      (loop i (runSteps w0 pre)).2.calls = (runSteps w0 pre).calls ++ made ∧
      made.filter Call.isDirConStart =
        (if wifiAfter w0.isWiFiConnected pre = true ∧
            Call.DirConManager_start true ∉ (runSteps w0 pre).calls
          then [Call.DirConManager_start i.dirConStart] else [])) ∧
    ((loop i (runSteps w0 pre)).2.isDirConStarted = true ↔
      Call.DirConManager_start true ∈ (loop i (runSteps w0 pre)).2.calls) ∧
    (wifiAfter w0.isWiFiConnected pre = true →
      Call.DirConManager_start true ∉ (runSteps w0 pre).calls →
      i.dirConStart = false →
      noConnectedIteration (wifiAfter w0.isWiFiConnected pre) mid = true →
      wifiAfter w0.isWiFiConnected (pre ++ Step.loop i :: mid) = true →
      ∃ made : List Call,
        (loop j (runSteps w0 (pre ++ Step.loop i :: mid))).2.calls =
          (runSteps w0 (pre ++ Step.loop i :: mid)).calls ++ made ∧
        made.filter Call.isDirConStart = [Call.DirConManager_start j.dirConStart]) ∧
    (Call.DirConManager_start true ∈ (loop i (runSteps w0 pre)).2.calls →
      (runSteps (loop i (runSteps w0 pre)).2 post).isDirConStarted = true ∧
      ∃ later : List Call,
        (runSteps (loop i (runSteps w0 pre)).2 post).calls =
          (loop i (runSteps w0 pre)).2.calls ++ later ∧
        ∀ r : Bool, Call.DirConManager_start r ∉ later) := by
  have inv := (runSteps_invariant w0 pre h0 hc).1
  have hwifi := runSteps_isWiFiConnected w0 pre
  have hstep : (loop i (runSteps w0 pre)).2 = runSteps w0 (pre ++ [Step.loop i]) := by
    rw [runSteps_append]; rfl
  have inv1 := (runSteps_invariant w0 (pre ++ [Step.loop i]) h0 hc).1
  rw [← hstep] at inv1
  have hflag : (loop i (runSteps w0 pre)).2.isDirConStarted = true ↔
      Call.DirConManager_start true ∈ (loop i (runSteps w0 pre)).2.calls := by
    rw [inv1]
    exact decide_eq_true_iff
  refine ⟨fun e => ?_, ?_, hflag, ?_, ?_⟩
  · rw [networkEvent_run]
    exact ⟨rfl, rfl⟩
  · refine ⟨loopCalls i (runSteps w0 pre), by rw [loop_run], ?_⟩
    rw [loopCalls_filter_start, hwifi, inv]
    by_cases hm : Call.DirConManager_start true ∈ (runSteps w0 pre).calls <;>
      cases wifiAfter w0.isWiFiConnected pre <;> simp [hm]
  · intro hup hnone hfail hmid hup2
    have hsplit : runSteps w0 (pre ++ Step.loop i :: mid) =
        runSteps (loop i (runSteps w0 pre)).2 mid := by
      rw [runSteps_concat, runSteps_cons]; rfl
    have hw1 : (loop i (runSteps w0 pre)).2.isWiFiConnected
        = wifiAfter w0.isWiFiConnected pre := by
      rw [loop_run]
      exact hwifi
    obtain ⟨later, hl1, hl2⟩ := runSteps_noConnectedIteration mid (loop i (runSteps w0 pre)).2
      (by rw [hw1]; exact hmid)
    have hnone1 : Call.DirConManager_start true ∉ (loop i (runSteps w0 pre)).2.calls := by
      have hs := loopCalls_start_mem i (runSteps w0 pre)
      rw [hfail, Bool.and_false] at hs
      rw [loop_run]
      simp only [List.mem_append, not_or]
      exact ⟨hnone, of_decide_eq_false hs⟩
    have hnone2 : Call.DirConManager_start true ∉
        (runSteps w0 (pre ++ Step.loop i :: mid)).calls := by
      rw [hsplit, hl1]
      simp only [List.mem_append, not_or]
      exact ⟨hnone1, start_true_isDirConStart_mem hl2 true⟩
    have inv2 := (runSteps_invariant w0 (pre ++ Step.loop i :: mid) h0 hc).1
    rw [decide_eq_false hnone2] at inv2
    have hwifi2 := runSteps_isWiFiConnected w0 (pre ++ Step.loop i :: mid)
    rw [hup2] at hwifi2
    refine ⟨loopCalls j (runSteps w0 (pre ++ Step.loop i :: mid)), by rw [loop_run], ?_⟩
    rw [loopCalls_filter_start, hwifi2, inv2]
    rfl
  · intro hsucc
    obtain ⟨h1, later, h2, h3⟩ := runSteps_started post (loop i (runSteps w0 pre)).2
      (hflag.mpr hsucc)
    exact ⟨h1, later, h2, start_true_isDirConStart_mem h3⟩

/-- Witness of C11: WiFi comes up and a first attempt fails; WiFi drops, an
iteration runs without WiFi, WiFi comes back, and the next iteration tries
again.  And: a first attempt succeeds; WiFi drops, stops and comes back with
iterations in between, and the flag stays set without another attempt. -/
theorem dircon_start_once_witness :
    (∃ made : List Call,
      (loop ⟨true, true⟩ (runSteps (bootWorld exampleSettings)
        ([Step.networkEvent WiFiEvent.ARDUINO_EVENT_WIFI_STA_GOT_IP] ++
          Step.loop ⟨true, false⟩ ::
          [Step.networkEvent WiFiEvent.ARDUINO_EVENT_WIFI_STA_DISCONNECTED,
           Step.loop ⟨true, true⟩,
           Step.networkEvent WiFiEvent.ARDUINO_EVENT_WIFI_STA_GOT_IP]))).2.calls =
        (runSteps (bootWorld exampleSettings)
          ([Step.networkEvent WiFiEvent.ARDUINO_EVENT_WIFI_STA_GOT_IP] ++
            Step.loop ⟨true, false⟩ ::
            [Step.networkEvent WiFiEvent.ARDUINO_EVENT_WIFI_STA_DISCONNECTED,
             Step.loop ⟨true, true⟩,
             Step.networkEvent WiFiEvent.ARDUINO_EVENT_WIFI_STA_GOT_IP])).calls ++ made ∧
      made.filter Call.isDirConStart = [Call.DirConManager_start true]) ∧
    (runSteps (loop ⟨true, true⟩ (runSteps (bootWorld exampleSettings)
        [Step.networkEvent WiFiEvent.ARDUINO_EVENT_WIFI_STA_GOT_IP])).2
      [Step.networkEvent WiFiEvent.ARDUINO_EVENT_WIFI_STA_DISCONNECTED,
       Step.loop ⟨true, true⟩,
       Step.networkEvent WiFiEvent.ARDUINO_EVENT_WIFI_STA_STOP,
       Step.networkEvent WiFiEvent.ARDUINO_EVENT_WIFI_STA_GOT_IP,
       Step.loop ⟨true, false⟩]).isDirConStarted = true :=
  ⟨(dircon_start_once (bootWorld exampleSettings)
      [Step.networkEvent WiFiEvent.ARDUINO_EVENT_WIFI_STA_GOT_IP] ⟨true, false⟩
      [Step.networkEvent WiFiEvent.ARDUINO_EVENT_WIFI_STA_DISCONNECTED,
       Step.loop ⟨true, true⟩,
       Step.networkEvent WiFiEvent.ARDUINO_EVENT_WIFI_STA_GOT_IP]
      ⟨true, true⟩ [] rfl (by intro c hc; cases hc)).2.2.2.1
      (by decide) (by decide) rfl (by decide) (by decide),
   ((dircon_start_once (bootWorld exampleSettings)
      [Step.networkEvent WiFiEvent.ARDUINO_EVENT_WIFI_STA_GOT_IP] ⟨true, true⟩
      [] ⟨true, true⟩
      [Step.networkEvent WiFiEvent.ARDUINO_EVENT_WIFI_STA_DISCONNECTED,
       Step.loop ⟨true, true⟩,
       Step.networkEvent WiFiEvent.ARDUINO_EVENT_WIFI_STA_STOP,
       Step.networkEvent WiFiEvent.ARDUINO_EVENT_WIFI_STA_GOT_IP,
       Step.loop ⟨true, false⟩]
      rfl (by intro c hc; cases hc)).2.2.2.2 (by decide)).1⟩

end SHIFTR
